import Mathlib

/-!
Verification of the DataIngestionAgent columnar profiling and rule-validation
engine.  The definitions below are a shallow embedding of the Python sources:

* `src/validation/data_validator.py`  (value coercion, type detection,
  expression preprocessing and evaluation, `validate_data`),
* `src/analysis/processors/stats_processor.py`  (`compute_stats`,
  `detect_quality_issues`),
* `src/analysis/core/data_analyzer.py`  (`_analyze_chunk`,
  `_combine_chunk_metrics`).

Machine floats are modelled as exact rationals; every value the analysed code
paths manipulate is an exact short decimal, so binary floating-point rounding
is not load-bearing for any stated theorem.  Pandas / polars dataframes are
modelled as association lists of named, dtype-tagged columns; missing values
are `Option.none`.
-/

namespace DataIngestion

/-! ## Exact rationals

A small normalized-fraction type is used instead of `Rat` so that every
arithmetic operation unfolds by kernel reduction (the library `Rat`
operations are irreducible).  All values are produced by `Q.norm` or from
integer literals, so the representation is always reduced with a positive
denominator and equality is structural. -/

structure Q where
  num : Int
  den : Int
  deriving DecidableEq

/-- Normalized fraction `n / d` (reduced, positive denominator).
`d = 0` never arises from the embedded code: every division by a possibly
zero quantity is explicitly guarded, mirroring the Python control flow. -/
def Q.norm (n d : Int) : Q :=
  if d = 0 then ⟨0, 1⟩
  else
    let s : Int := if d < 0 then -1 else 1
    let n1 := s * n
    let d1 := s * d
    let g : Int := (Int.gcd n1 d1 : Nat)
    ⟨n1 / g, d1 / g⟩

instance (n : Nat) : OfNat Q n := ⟨⟨(n : Int), 1⟩⟩

def Q.ofNat (n : Nat) : Q := ⟨(n : Int), 1⟩

def Q.ofInt (n : Int) : Q := ⟨n, 1⟩

def Q.add (a b : Q) : Q := Q.norm (a.num * b.den + b.num * a.den) (a.den * b.den)

def Q.mul (a b : Q) : Q := Q.norm (a.num * b.num) (a.den * b.den)

def Q.sub (a b : Q) : Q := Q.norm (a.num * b.den - b.num * a.den) (a.den * b.den)

/-- Division; `a / 0 = 0` is a junk value that no embedded code path
observes (Python raises there, and every such site is guarded). -/
def Q.div (a b : Q) : Q :=
  if b.num = 0 then ⟨0, 1⟩ else Q.norm (a.num * b.den) (a.den * b.num)

instance : Add Q := ⟨Q.add⟩
instance : Mul Q := ⟨Q.mul⟩
instance : Sub Q := ⟨Q.sub⟩
instance : Div Q := ⟨Q.div⟩
instance : Neg Q := ⟨fun a => ⟨-a.num, a.den⟩⟩

def Q.blt (a b : Q) : Bool := a.num * b.den < b.num * a.den

def Q.ble (a b : Q) : Bool := a.num * b.den ≤ b.num * a.den

instance : LT Q := ⟨fun a b => Q.blt a b = true⟩

instance : LE Q := ⟨fun a b => Q.ble a b = true⟩

instance (a b : Q) : Decidable (a < b) := inferInstanceAs (Decidable (Q.blt a b = true))

instance (a b : Q) : Decidable (a ≤ b) := inferInstanceAs (Decidable (Q.ble a b = true))

def Q.floor (a : Q) : Int := a.num.fdiv a.den

def Q.abs (a : Q) : Q := ⟨a.num.natAbs, a.den⟩

/-- Fractional part `a - ⌊a⌋`. -/
def Q.fract (a : Q) : Q := a - Q.ofInt a.floor

/-- Whether the value is an integer (zero fractional part). -/
def Q.isInt (a : Q) : Bool := a.den = 1

/-! ## Python-style numeric helpers -/

/-- Round-half-to-even, as Python's built-in `round`,
`pandas.Series.round` and numpy rounding behave. -/
def roundHalfEven (q : Q) : Int :=
  let f : Int := q.floor
  let frac : Q := q - Q.ofInt f
  if frac < (1 : Q) / 2 then f
  else if (1 : Q) / 2 < frac then f + 1
  else if f % 2 = 0 then f else f + 1

/-- Python `round(q, k)`: round half-to-even at `k` decimal places. -/
def pyRound (k : Nat) (q : Q) : Q :=
  Q.ofInt (roundHalfEven (q * Q.ofNat (10 ^ k))) / Q.ofNat (10 ^ k)

/-- `round(_, 2)`, the rounding used for all reported percentages. -/
def round2 (q : Q) : Q := pyRound 2 q

/-- Numeric value of a list of decimal digit characters. -/
def digitsToNat (cs : List Char) : Nat :=
  cs.foldl (fun n c => 10 * n + (c.toNat - 48)) 0

/-- Parse of a plain decimal literal, modelling Python `float(s)` /
`pd.to_numeric(s, errors='coerce')` on the strings these code paths produce:
an optional sign, digits, at most one decimal point, at least one digit.
(The exponent / `inf` / `nan` spellings accepted by `float` are never
produced by the analysed pipelines and are not modelled.)  Failure is
`none`, the model of the NaN sentinel. -/
def parseDecimal (s : String) : Option Q :=
  let core : List Char → Option Q := fun l =>
    match l.splitOn '.' with
    | [a] =>
      if a ≠ [] ∧ a.all Char.isDigit then some (Q.ofNat (digitsToNat a)) else none
    | [a, b] =>
      if (a ≠ [] ∨ b ≠ []) ∧ a.all Char.isDigit ∧ b.all Char.isDigit then
        some (Q.ofNat (digitsToNat a) + Q.ofNat (digitsToNat b) / Q.ofNat (10 ^ b.length))
      else none
    | _ => none
  match s.data with
  | '-' :: rest => (core rest).map (fun q => -q)
  | '+' :: rest => core rest
  | cs => core cs

/-- Decimal digits of the fractional part of a nonnegative rational `< 1`,
with fuel (Python float reprs of the exact decimals handled here are short). -/
def fracDigitsAux : Nat → Q → List Char
  | 0, _ => []
  | fuel + 1, q =>
    if q = (0 : Q) then []
    else
      let q10 := q * 10
      let d : Int := q10.floor
      Char.ofNat (48 + d.toNat) :: fracDigitsAux fuel (q10 - Q.ofInt d)

/-- `str(x)` for a float64 value: always shows a decimal point
(`str(2.0) = "2.0"`). -/
def ratToFloatStr (q : Q) : String :=
  let sign := if q < 0 then "-" else ""
  let a := q.abs
  let ip : Nat := a.floor.toNat
  let ds := fracDigitsAux 20 a.fract
  sign ++ toString ip ++ "." ++ (if ds = [] then "0" else String.mk ds)

/-- `str(x)` for an int64 value. -/
def ratToIntStr (q : Q) : String :=
  let sign := if q < 0 then "-" else ""
  sign ++ toString q.abs.floor.toNat

/-- Count of digits after the decimal point in `str(x)` of a float64 value
(`str(num)[::-1].find('.')` in `detect_column_type`): at least 1, since the
float `str` always shows one fractional digit. -/
def floatStrDecimals (q : Q) : Nat :=
  max 1 (fracDigitsAux 20 q.abs.fract).length

/-- Left-pad a numeral string with zeros to width `k`. -/
def padLeftZeros (k : Nat) (s : String) : String :=
  String.mk (List.replicate (k - s.length) '0') ++ s

/-- Python fixed-point formatting `f'{q:.kf}'`. -/
def fmtFixed (k : Nat) (q : Q) : String :=
  let n : Int := roundHalfEven (q * Q.ofNat (10 ^ k))
  let sign := if n < 0 then "-" else ""
  let m := n.natAbs
  if k = 0 then sign ++ toString m
  else sign ++ toString (m / 10 ^ k) ++ "." ++ padLeftZeros k (toString (m % 10 ^ k))

/-- Characters matched by the regex class `\s`. -/
def isPySpace (c : Char) : Bool :=
  c = ' ' || c = '\t' || c = '\n' || c = '\x0d' || c = '\x0b' || c = '\x0c'

/-! ## Calendar rendering (`strftime`) -/

/-- Days since 1970-01-01 to proleptic-Gregorian (year, month, day);
the standard civil-from-days computation with floor division. -/
def civilFromDays (z0 : Int) : Int × Nat × Nat :=
  let z := z0 + 719468
  let era : Int := z.fdiv 146097
  let doe : Nat := (z.fmod 146097).toNat
  let yoe : Nat := (doe - doe / 1460 + doe / 36524 - doe / 146096) / 365
  let y : Int := (yoe : Int) + era * 400
  let doy : Nat := doe - (365 * yoe + yoe / 4 - yoe / 100)
  let mp : Nat := (5 * doy + 2) / 153
  let d : Nat := doy - (153 * mp + 2) / 5 + 1
  let m : Nat := if mp < 10 then mp + 3 else mp - 9
  (if m ≤ 2 then y + 1 else y, m, d)

/-- Zero-padded two-digit rendering. -/
def pad2 (n : Nat) : String :=
  if n < 10 then "0" ++ toString n else toString n

/-- `Timestamp.strftime('%Y-%m-%d %H:%M:%S')` for a datetime64[ns] value. -/
def fmtTimestampNs (ns : Int) : String :=
  let secs := ns.fdiv 1000000000
  let days := secs.fdiv 86400
  let sod := (secs.fmod 86400).toNat
  let ymd := civilFromDays days
  toString ymd.1 ++ "-" ++ pad2 ymd.2.1 ++ "-" ++ pad2 ymd.2.2 ++ " " ++
    pad2 (sod / 3600) ++ ":" ++ pad2 (sod % 3600 / 60) ++ ":" ++ pad2 (sod % 60)

/-! ## Dataframe model -/

/-- A pandas column tagged with its dtype:
`strCol` is object dtype (string cells), `numCol true` is int64,
`numCol false` is float64, `dtCol` is datetime64[ns] (nanoseconds since the
Unix epoch). -/
inductive ColData where
  | strCol (vals : List (Option String))
  | numCol (isInt : Bool) (vals : List (Option Q))
  | dtCol (vals : List (Option Int))
  deriving DecidableEq

/-- A dataframe: ordered association list of named columns. -/
abbrev Df := List (String × ColData)

/-- First-match association-list lookup (Python dict access semantics;
real dicts have unique keys). -/
def alookup {α : Type} : List (String × α) → String → Option α
  | [], _ => none
  | (k, v) :: rest, key => if k = key then some v else alookup rest key

/-- `df[name] = col`: overwrite in place if present, else append. -/
def dfSet (df : Df) (name : String) (col : ColData) : Df :=
  if (alookup df name).isSome then
    df.map (fun p => if p.1 = name then (name, col) else p)
  else df ++ [(name, col)]

/-- `series.astype(str)` cell renderings, per dtype (`str(None) = "None"`,
`str(nan) = "nan"`, `str(NaT) = "NaT"`). -/
def cellStrs : ColData → List String
  | .strCol vs => vs.map (fun v => v.getD "None")
  | .numCol true vs => vs.map (fun v => match v with | some q => ratToIntStr q | none => "nan")
  | .numCol false vs => vs.map (fun v => match v with | some q => ratToFloatStr q | none => "nan")
  | .dtCol vs => vs.map (fun v => match v with | some ns => fmtTimestampNs ns | none => "NaT")

/-! ## `convert_to_decimal` (data_validator.py) -/

/-- One cell of `convert_to_decimal`: mark a parenthesis-wrapped value
negative and strip the parentheses, strip the currency symbols `$ £ € ¥`,
strip `,` and whitespace, strip `%` (remembering it), parse as a number
(`none` models the NaN sentinel), then negate / divide by 100 as marked. -/
def convertToDecimalValue (s : String) : Option Q :=
  let cs := s.data
  let isNeg := cs.head? = some '(' ∧ cs.getLast? = some ')'
  let s1 := if isNeg then (cs.drop 1).dropLast else cs
  let s2 := s1.filter (fun c => !(c = '$' || c = '£' || c = '€' || c = '¥'))
  let s3 := s2.filter (fun c => !(c = ',' || isPySpace c))
  let hasPct := s3.contains '%'
  let s4 := s3.filter (fun c => !(c = '%'))
  let v0 := parseDecimal (String.mk s4)
  let v1 := if isNeg then v0.map (fun q => -q) else v0
  if hasPct then v1.map (fun q => q / 100) else v1

/-- `convert_to_decimal` over a whole column: render every cell with
`astype(str)`, convert each, and round only when `decimal_places` is given. -/
def convertToDecimalCol (c : ColData) (decimalPlaces : Option Nat) : List (Option Q) :=
  let vals := (cellStrs c).map convertToDecimalValue
  match decimalPlaces with
  | none => vals
  | some k => vals.map (Option.map (pyRound k))

/-- C2: on the inputs `"$100"`, `"(50)"`, `"25%"`, `"1,200.5"`, numeric
coercion with no requested precision returns exactly `100`, `-50`, `1/4`
(= 0.25) and `2401/2` (= 1200.5): currency symbols and thousands separators
are stripped, a parenthesised value is negated, and a trailing `%` divides
by 100. -/
theorem convert_to_decimal_examples :
    convertToDecimalCol
        (.strCol [some "$100", some "(50)", some "25%", some "1,200.5"]) none
      = [some 100, some (-50), some ((1 : Q)/4), some ((2401 : Q)/2)] := by
  decide

/-! ## `detect_column_type` (data_validator.py) -/

/-- ASCII lowering, as `str.lower` behaves on the token sets involved. -/
def pyLowerChar (c : Char) : Char :=
  if 'A' ≤ c ∧ c ≤ 'Z' then Char.ofNat (c.toNat + 32) else c

/-- `s.lower()`. -/
def strLower (s : String) : String := String.mk (s.data.map pyLowerChar)

/-- Distinct elements in order of first appearance (the multiset of distinct
values; Python's `Series.unique`, whose exact order is not load-bearing). -/
def dedupFAAux {α : Type} [DecidableEq α] : List α → List α → List α
  | _, [] => []
  | seen, x :: xs =>
    if x ∈ seen then dedupFAAux seen xs else x :: dedupFAAux (x :: seen) xs

/-- Distinct elements of a list. -/
def dedupFA {α : Type} [DecidableEq α] (l : List α) : List α := dedupFAAux [] l

/-- `len(samples.unique()) / total_samples`. -/
def uniqueRatioOf {α : Type} [DecidableEq α] (l : List α) (total : Nat) : Q :=
  Q.ofNat (dedupFA l).length / Q.ofNat total

/-- The fixed boolean-token set of `detect_column_type`. -/
def boolTokens : List String :=
  ["true", "false", "t", "f", "yes", "no", "y", "n", "1", "0"]

/-- Truncation toward zero, `int(x)` / numpy int64 cast of a float. -/
def Q.trunc (a : Q) : Int := a.num.tdiv a.den

/-- Days since 1970-01-01 of a proleptic-Gregorian date (inverse of
`civilFromDays`). -/
def daysFromCivil (y0 : Int) (m d : Nat) : Int :=
  let y := if m ≤ 2 then y0 - 1 else y0
  let era := y.fdiv 400
  let yoe : Nat := (y - era * 400).toNat
  let mp : Nat := if 2 < m then m - 3 else m + 9
  let doy : Nat := (153 * mp + 2) / 5 + d - 1
  let doe : Nat := yoe * 365 + yoe / 4 - yoe / 100 + doy
  era * 146097 + (doe : Int) - 719468

/-- Model of pandas flexible string→datetime parsing
(`pd.to_datetime(..., errors='raise')` elementwise), restricted to the ISO
`YYYY-MM-DD` form — the only string datetime format the modelled flows
exercise.  Every other string, in particular every plain decimal string such
as `"1.5"`, fails to parse, as it does in pandas.  The result is
nanoseconds since the Unix epoch. -/
def pdToDatetimeStr (s : String) : Option Int :=
  match s.data with
  | [y1, y2, y3, y4, '-', m1, m2, '-', d1, d2] =>
    if [y1, y2, y3, y4, m1, m2, d1, d2].all Char.isDigit then
      let y := digitsToNat [y1, y2, y3, y4]
      let m := digitsToNat [m1, m2]
      let d := digitsToNat [d1, d2]
      if 1 ≤ m ∧ m ≤ 12 ∧ 1 ≤ d ∧ d ≤ 31 then
        some (daysFromCivil (y : Int) m d * 86400 * 1000000000)
      else none
    else none
  | _ => none

/-- Result of `detect_column_type`. -/
structure ColTypeInfo where
  base_type : String
  specific_type : String
  sample_format : Option String
  unique_ratio : Q
  deriving DecidableEq

/-- The `unknown` result for an empty sample. -/
def unknownInfo : ColTypeInfo :=
  { base_type := "unknown", specific_type := "unknown",
    sample_format := none, unique_ratio := 0 }

/-- Whether a string is one of the fixed boolean tokens, lower-cased. -/
def isBoolTokenB (s : String) : Bool := strLower s ∈ boolTokens

/-- The string-dtype branch of `detect_column_type`, applied to the
non-null sample.  The check order is that of the source: boolean tokens,
datetime parse of the whole sample, numeric parse of the whole sample,
low-cardinality categorical, string. -/
def detectStrSamples (dtParse : String → Option Int) : List String → ColTypeInfo
  | [] => unknownInfo
  | s0 :: rest =>
    let samples := s0 :: rest
    if samples.all isBoolTokenB then
      { base_type := "boolean", specific_type := "boolean",
        sample_format := none,
        unique_ratio := uniqueRatioOf samples samples.length }
    else if samples.all (fun s => (dtParse s).isSome) then
      let parsed := samples.filterMap dtParse
      { base_type := "datetime", specific_type := "datetime",
        sample_format := some (fmtTimestampNs ((dtParse s0).getD 0)),
        unique_ratio := uniqueRatioOf parsed samples.length }
    else if samples.all (fun s => (parseDecimal s).isSome) then
      let qs := samples.filterMap parseDecimal
      if qs.all Q.isInt then
        { base_type := "numeric", specific_type := "integer",
          sample_format := some (match qs with | q :: _ => fmtFixed 0 q | [] => ""),
          unique_ratio := uniqueRatioOf qs samples.length }
      else
        let maxDec := qs.foldl (fun m q => max m (floatStrDecimals q)) 0
        { base_type := "numeric", specific_type := "float",
          sample_format := some (match qs with | q :: _ => fmtFixed maxDec q | [] => ""),
          unique_ratio := uniqueRatioOf qs samples.length }
    else if uniqueRatioOf samples samples.length < (1 : Q) / 10 ∧
        (dedupFA samples).length < 50 then
      { base_type := "categorical", specific_type := "categorical",
        sample_format := none,
        unique_ratio := uniqueRatioOf samples samples.length }
    else
      { base_type := "string", specific_type := "string",
        sample_format := none,
        unique_ratio := uniqueRatioOf samples samples.length }

/-- `detect_column_type`, parametrised by the string→datetime parser
`dtParse` (a call into pandas, external to this repository).  On a
numeric-dtype column `pd.to_datetime` always succeeds (the values are read
as nanoseconds since the epoch), so such columns that are not
boolean-token-valued classify as `datetime`. -/
def detectColumnType (dtParse : String → Option Int) : ColData → ColTypeInfo
  | .dtCol vs =>
    let samples := vs.filterMap id
    match samples with
    | [] => unknownInfo
    | s0 :: _ =>
      { base_type := "datetime", specific_type := "datetime64",
        sample_format := some (fmtTimestampNs s0),
        unique_ratio := uniqueRatioOf samples samples.length }
  | .numCol isInt vs =>
    let samples := vs.filterMap id
    match samples with
    | [] => unknownInfo
    | q0 :: _ =>
      let strs := samples.map (fun q => if isInt then ratToIntStr q else ratToFloatStr q)
      if strs.all isBoolTokenB then
        { base_type := "boolean", specific_type := "boolean",
          sample_format := none,
          unique_ratio := uniqueRatioOf samples samples.length }
      else
        { base_type := "datetime", specific_type := "datetime",
          sample_format := some (fmtTimestampNs q0.trunc),
          unique_ratio := uniqueRatioOf (samples.map Q.trunc) samples.length }
  | .strCol vs => detectStrSamples dtParse (vs.filterMap id)

/-- C3: on an object-dtype column whose non-null sample values all parse as
numbers, are not all boolean tokens, and do not all parse as datetimes
(for any datetime-parsing behaviour `dtParse`), `detect_column_type`
returns base type `numeric` — `integer` when every value has zero
fractional part, else `float`.  No cardinality hypothesis appears: the
numeric check precedes the categorical check, so a low unique-value ratio
cannot demote such a column to `categorical`. -/
theorem detect_column_type_numeric_wins
    (dtParse : String → Option Int) (cells : List (Option String))
    (hne : cells.filterMap id ≠ [])
    (hnum : ∀ s ∈ cells.filterMap id, (parseDecimal s).isSome)
    (hnb : ¬ ∀ s ∈ cells.filterMap id, isBoolTokenB s)
    (hnd : ¬ ∀ s ∈ cells.filterMap id, (dtParse s).isSome) :
    (detectColumnType dtParse (.strCol cells)).base_type = "numeric" ∧
    (detectColumnType dtParse (.strCol cells)).specific_type =
      (if ((cells.filterMap id).filterMap parseDecimal).all Q.isInt
       then "integer" else "float") := by
  have hdet : detectColumnType dtParse (.strCol cells)
      = detectStrSamples dtParse (cells.filterMap id) := rfl
  rw [hdet]
  cases h : cells.filterMap id with
  | nil => exact absurd h hne
  | cons s0 rest =>
    rw [h] at hnum hnb hnd
    have hb : ¬ ((s0 :: rest).all isBoolTokenB = true) := fun hall =>
      hnb (fun s hs => List.all_eq_true.mp hall s hs)
    have hd : ¬ ((s0 :: rest).all (fun s => (dtParse s).isSome) = true) := fun hall =>
      hnd (fun s hs => List.all_eq_true.mp hall s hs)
    have ha : (s0 :: rest).all (fun s => (parseDecimal s).isSome) = true :=
      List.all_eq_true.mpr (fun s hs => hnum s hs)
    simp only [detectStrSamples, if_neg hb, if_neg hd, if_pos ha]
    by_cases hint : ((s0 :: rest).filterMap parseDecimal).all Q.isInt = true
    · rw [if_pos hint, if_pos hint]
      exact ⟨rfl, rfl⟩
    · rw [if_neg hint, if_neg hint]
      exact ⟨rfl, rfl⟩

/-- Sample cells for the C3 witness: 21 numeric strings with only two
distinct values, so the unique-value ratio is 2/21 < 0.1 and the distinct
count is 2 < 50 — exactly the profile the categorical check would claim. -/
def lowCardNumericCells : List (Option String) :=
  [some "7", some "7", some "7", some "7", some "7", some "7", some "7",
   some "7", some "7", some "7", some "7", some "7", some "7", some "7",
   some "7", some "7", some "7", some "7", some "7", some "7", some "3"]

/-- Witness for C3 at a concrete low-cardinality numeric column: the result
is `numeric`/`integer`, not `categorical`. -/
theorem detect_column_type_numeric_wins_witness :
    (detectColumnType (fun _ => none) (.strCol lowCardNumericCells)).base_type
        = "numeric" ∧
    (detectColumnType (fun _ => none) (.strCol lowCardNumericCells)).specific_type
        = "integer" := by
  have h := detect_column_type_numeric_wins (fun _ => none) lowCardNumericCells
    (by decide) (by decide) (by decide) (by decide)
  refine ⟨h.1, ?_⟩
  rw [h.2]
  decide

/-! ## Order facts for `Q` -/

theorem Q.not_lt_of_le {a b : Q} (h : a ≤ b) : ¬ b < a := by
  have hle : a.num * b.den ≤ b.num * a.den := by
    have := h
    simp only [LE.le, Q.ble, decide_eq_true_eq] at this
    exact this
  intro hlt
  have : b.num * a.den < a.num * b.den := by
    simp only [LT.lt, Q.blt, decide_eq_true_eq] at hlt
    exact hlt
  exact absurd this (Int.not_lt.mpr hle)

theorem Q.norm_zero (d : Int) : Q.norm 0 d = ⟨0, 1⟩ := by
  unfold Q.norm
  by_cases hd : d = 0
  · simp [hd]
  · rw [if_neg hd]
    by_cases hneg : d < 0
    · simp only [if_pos hneg]
      have hpos : (0 : Int) < -1 * d := by omega
      have habs : ((-1 : Int) * d).natAbs = -1 * d := by omega
      simp only [mul_zero, Int.gcd]
      rw [show ((0 : Int).natAbs) = 0 from rfl]
      rw [Nat.gcd_zero_left]
      simp only [Q.mk.injEq]
      refine ⟨by simp, ?_⟩
      rw [habs]
      exact Int.ediv_self (by omega)
    · simp only [if_neg hneg]
      have hpos : (0 : Int) < 1 * d := by omega
      have habs : ((1 : Int) * d).natAbs = 1 * d := by omega
      simp only [mul_zero, Int.gcd]
      rw [show ((0 : Int).natAbs) = 0 from rfl]
      rw [Nat.gcd_zero_left]
      simp only [Q.mk.injEq]
      refine ⟨by simp, ?_⟩
      rw [habs]
      exact Int.ediv_self (by omega)

theorem Q.zero_div (b : Q) : (Q.ofNat 0) / b = ⟨0, 1⟩ := by
  show Q.div (Q.ofNat 0) b = ⟨0, 1⟩
  unfold Q.div Q.ofNat
  by_cases hb : b.num = 0
  · simp [hb]
  · rw [if_neg hb]
    simpa using Q.norm_zero (1 * b.num)

theorem Q.zero_mul_q (b : Q) : (⟨0, 1⟩ : Q) * b = ⟨0, 1⟩ := by
  show Q.mul ⟨0, 1⟩ b = ⟨0, 1⟩
  unfold Q.mul
  simpa using Q.norm_zero (1 * b.den)

theorem Q.not_twenty_lt_zero : ¬ (20 : Q) < (⟨0, 1⟩ : Q) := by decide

/-! ## `compute_stats` (stats_processor.py)

A polars series is modelled as its dtype rendering (`str(series.dtype)`)
plus its cells in canonical rendered form: distinctness of cells is
preserved, so counts are exact.  A stats object is a Python dict with
optional keys; `compute_stats` either fills every key, or — when a
`ZeroDivisionError` escapes to its `except` handler — returns the
error-tagged dict with only `error` set. -/

structure StatsDict where
  column_name : Option String := none
  data_type : Option String := none
  total_rows : Option Nat := none
  null_count : Option Nat := none
  null_percentage : Option Q := none
  unique_count : Option Nat := none
  unique_percentage : Option Q := none
  sample_values : Option (List String) := none
  value_counts : Option (List (String × Nat × Q)) := none
  error : Option String := none
  deriving DecidableEq

/-- First 10 characters (`strftime('%Y-%m-%d')` of a date cell stored in ISO
rendering). -/
def take10 (s : String) : String := String.mk (s.data.take 10)

/-- `compute_stats`.  `sample_values` is `drop_nulls().unique().head(10)`,
formatted as dates when `str(series.dtype).lower()` is exactly `date` or
`datetime`.  `value_counts` maps each distinct non-null rendered value to
its count and percentage of `len(series)` (dict key order is not
semantically significant and is modelled as first appearance).
`n_unique` counts null as a distinct value, polars semantics.  The
`unique_percentage` entry divides by `len(series) - null_count` and the
`null_percentage` entry by `len(series)`; when a denominator is zero the
Python `ZeroDivisionError` is caught by the function's handler, which
returns `{error: 'division by zero'}` instead of a stats dict. -/
def computeStats (name dtypeStr : String) (vals : List (Option String)) : StatsDict :=
  let isDateT := strLower dtypeStr = "date" ∨ strLower dtypeStr = "datetime"
  let fmtCell : String → String := fun v => if isDateT then take10 v else v
  let nonNull := vals.filterMap id
  let samples := (dedupFA nonNull).take 10
  let formatted := samples.map fmtCell
  let pdVals := nonNull.map fmtCell
  let n := vals.length
  let keys := dedupFA pdVals
  let vcounts := keys.map (fun k =>
    (k, pdVals.count k, round2 (Q.ofNat (pdVals.count k) / Q.ofNat n * 100)))
  let nullCount := n - nonNull.length
  let nUnique := (dedupFA vals).length
  if n = 0 then { error := some "division by zero" }
  else if n - nullCount = 0 then { error := some "division by zero" }
  else
    { column_name := some name, data_type := some dtypeStr,
      total_rows := some n, null_count := some nullCount,
      null_percentage := some (round2 (Q.ofNat nullCount / Q.ofNat n * 100)),
      unique_count := some nUnique,
      unique_percentage :=
        some (round2 (Q.ofNat nUnique / Q.ofNat (n - nullCount) * 100)),
      sample_values := some formatted, value_counts := some vcounts,
      error := none }

/-- C5 counterexample: on an all-null column the `unique_percentage`
division has denominator `total_rows - null_count = 0`, the
`ZeroDivisionError` reaches the handler, and `compute_stats` returns the
error-tagged object — not a stats object with the usual fields. -/
theorem compute_stats_allnull_is_error :
    computeStats "c" "String" [none, none]
      = { error := some "division by zero" } ∧
    (computeStats "c" "String" [none, none]).total_rows = none := by
  constructor <;> decide

/-- C5 (amended): for every non-empty column whose values are all null,
`compute_stats` returns the error-tagged dict `{error: 'division by zero'}`
(every ordinary stats field absent), because `unique_percentage` divides by
the zero non-null count. -/
theorem compute_stats_allnull_error (name dtypeStr : String)
    (vals : List (Option String)) (hne : vals ≠ [])
    (hnull : ∀ v ∈ vals, v = none) :
    computeStats name dtypeStr vals = { error := some "division by zero" } := by
  have hfm : vals.filterMap id = [] := by
    rw [List.filterMap_eq_nil_iff]
    intro a ha
    exact hnull a ha
  have hn : vals.length ≠ 0 := fun h => hne (List.length_eq_zero.mp h)
  unfold computeStats
  rw [hfm]
  simp only [List.length_nil, Nat.sub_zero, if_neg hn, Nat.sub_self]
  simp

/-- Witness for C5 (amended) at a concrete two-row all-null column. -/
theorem compute_stats_allnull_error_witness :
    computeStats "age" "String" [none, none]
      = { error := some "division by zero" } :=
  compute_stats_allnull_error "age" "String" [none, none]
    (by decide) (by decide)

/-! ## `detect_quality_issues` (stats_processor.py) -/

structure QualityIssue where
  column : String
  issue_type : String
  description : String
  severity : String
  deriving DecidableEq

structure SchemaInfo where
  numeric_columns : List String := []
  string_columns : List String := []
  date_columns : List String := []
  datetime_columns : List String := []
  nested_columns : List String := []
  array_columns : List String := []
  flattened_columns : List String := []
  deriving DecidableEq

structure AnalysisInfo where
  total_rows : Nat := 0
  processed_rows : Nat := 0
  processed_in_chunks : Bool := false
  parallel_processing : Bool := false
  error_occurred : Bool := false
  deriving DecidableEq

/-- The metrics dict consumed and annotated by `detect_quality_issues`:
every key optional, mirroring the `metrics.get(key, default)` accesses. -/
structure MetricsDict where
  total_rows : Option Nat := none
  total_columns : Option Nat := none
  column_stats : Option (List (String × StatsDict)) := none
  schema_info : Option SchemaInfo := none
  analysis_info : Option AnalysisInfo := none
  data_quality_issues : Option (List QualityIssue) := none
  deriving DecidableEq

/-- The strict numeric pattern `^-?\d*\.?\d+$` of the mixed-type check. -/
def numericPatternB (s : String) : Bool :=
  let cs := match s.data with
    | '-' :: rest => rest
    | cs => cs
  match cs.splitOn '.' with
  | [a] => a ≠ [] && a.all Char.isDigit
  | [a, b] => b ≠ [] && a.all Char.isDigit && b.all Char.isDigit
  | _ => false

/-- ASCII letter test (the sample values involved are ASCII). -/
def isAsciiAlpha (c : Char) : Bool :=
  ('A' ≤ c && c ≤ 'Z') || ('a' ≤ c && c ≤ 'z')

/-- Python `str.isupper`: some cased character, and no lowercase one. -/
def pyIsUpper (s : String) : Bool :=
  s.data.any isAsciiAlpha && !(s.data.any (fun c => 'a' ≤ c && c ≤ 'z'))

/-- Python `str.islower`: some cased character, and no uppercase one. -/
def pyIsLower (s : String) : Bool :=
  s.data.any isAsciiAlpha && !(s.data.any (fun c => 'A' ≤ c && c ≤ 'Z'))

/-- A character outside `[a-zA-Z0-9\s]` (the special-character check). -/
def isSpecialChar (c : Char) : Bool :=
  !(isAsciiAlpha c || c.isDigit || isPySpace c)

/-- The issues the detector emits for one column, in source order:
high null percentage, then (for string-bucketed columns) mixed data types,
inconsistent casing, special characters, then (for non-numeric-bucketed
columns) high cardinality.  The source also records each emitted issue
under a key `f"{kind}_{col}"` in a seen-set; since dict column keys are
unique within a call and the five kind prefixes can never produce colliding
keys, that set never suppresses anything and is omitted here. -/
def columnIssues (totalRows : Nat) (si : SchemaInfo) (col : String)
    (s : StatsDict) : List QualityIssue :=
  let nullCount := s.null_count.getD 0
  let strSamples := s.sample_values.getD []
  let nullIssues :=
    if 0 < nullCount ∧ 0 < totalRows then
      if (20 : Q) < Q.ofNat nullCount / Q.ofNat totalRows * 100 then
        [{ column := col, issue_type := "high_null_percentage",
           description := "Column has "
             ++ fmtFixed 1 (Q.ofNat nullCount / Q.ofNat totalRows * 100)
             ++ "% null values",
           severity :=
             if (50 : Q) < Q.ofNat nullCount / Q.ofNat totalRows * 100
             then "high" else "medium" }]
      else []
    else []
  let stringIssues :=
    if col ∈ si.string_columns then
      let numericCount := (strSamples.filter numericPatternB).length
      let mixed :=
        if 0 < strSamples.length ∧ 0 < numericCount ∧
            numericCount < strSamples.length then
          [{ column := col, issue_type := "mixed_data_types",
             description := "Column contains mix of numeric and non-numeric values",
             severity := "medium" }]
        else []
      let casing :=
        if strSamples.any pyIsUpper ∧ strSamples.any pyIsLower then
          [{ column := col, issue_type := "inconsistent_casing",
             description := "Column contains mix of upper and lower case values",
             severity := "low" }]
        else []
      let special :=
        if strSamples.any (fun t => t.data.any isSpecialChar) then
          [{ column := col, issue_type := "special_characters",
             description := "Column contains special characters",
             severity := "low" }]
        else []
      mixed ++ casing ++ special
    else []
  let cardIssues :=
    if col ∉ si.numeric_columns then
      let uc := s.unique_count.getD 0
      let nonNull : Int := (totalRows : Int) - (nullCount : Int)
      if 0 < uc ∧ 0 < nonNull then
        if (90 : Q) < Q.ofNat uc / Q.ofInt nonNull * 100 then
          [{ column := col, issue_type := "high_cardinality",
             description := "Column has "
               ++ fmtFixed 1 (Q.ofNat uc / Q.ofInt nonNull * 100)
               ++ "% unique values",
             severity := "medium" }]
        else []
      else []
    else []
  nullIssues ++ stringIssues ++ cardIssues

/-- `detect_quality_issues`: always (re)writes `data_quality_issues` — the
empty list when `total_rows` is 0 or missing, otherwise the issues computed
afresh from `total_rows`, `column_stats` and `schema_info`.  (In the typed
model `column_stats` is always a dict, so the source's isinstance guard is
the identity.)  The source mutates `metrics` in place; the model returns
the updated dict. -/
def detectQualityIssues (m : MetricsDict) : MetricsDict :=
  if m.total_rows.getD 0 = 0 then { m with data_quality_issues := some [] }
  else
    { m with
      data_quality_issues := some
        (((m.column_stats.getD []).map
          (fun p => columnIssues (m.total_rows.getD 0) (m.schema_info.getD {}) p.1 p.2)).flatten) }

/-- Severities of the `high_null_percentage` issues the detector reports
for column `c`. -/
def nullSeverities (m : MetricsDict) (c : String) : List String :=
  (((detectQualityIssues m).data_quality_issues.getD []).filter
    (fun i => i.issue_type = "high_null_percentage" ∧ i.column = c)).map
    (fun i => i.severity)

theorem Q.norm_den_pos (n d : Int) : 0 < (Q.norm n d).den := by
  unfold Q.norm
  by_cases hd : d = 0
  · simp [hd]
  · rw [if_neg hd]
    by_cases hneg : d < 0
    · simp only [if_pos hneg]
      have hd1 : (0 : Int) < -1 * d := by omega
      have hg : ((Int.gcd (-1 * n) (-1 * d) : Nat) : Int) ∣ -1 * d :=
        Int.gcd_dvd_right
      have hgpos : (0 : Int) < ((Int.gcd (-1 * n) (-1 * d) : Nat) : Int) := by
        have : Int.gcd (-1 * n) (-1 * d) ≠ 0 := by
          intro h0
          have := Int.gcd_eq_zero_iff.mp h0
          omega
        omega
      exact Int.ediv_pos_of_pos_of_dvd hd1 (by omega) hg
    · simp only [if_neg hneg]
      have hd1 : (0 : Int) < 1 * d := by omega
      have hg : ((Int.gcd (1 * n) (1 * d) : Nat) : Int) ∣ 1 * d :=
        Int.gcd_dvd_right
      have hgpos : (0 : Int) < ((Int.gcd (1 * n) (1 * d) : Nat) : Int) := by
        have : Int.gcd (1 * n) (1 * d) ≠ 0 := by
          intro h0
          have := Int.gcd_eq_zero_iff.mp h0
          omega
        omega
      exact Int.ediv_pos_of_pos_of_dvd hd1 (by omega) hg

theorem Q.mul_den_pos (a b : Q) : 0 < (a * b).den :=
  Q.norm_den_pos (a.num * b.num) (a.den * b.den)

theorem Q.lt_iff (a b : Q) : a < b ↔ a.num * b.den < b.num * a.den := by
  constructor
  · intro h
    exact of_decide_eq_true h
  · intro h
    exact decide_eq_true h

/-- `50 < x → 20 < x` for a well-formed (positive-denominator) value. -/
theorem Q.twenty_lt_of_fifty_lt {x : Q} (hd : 0 < x.den)
    (h : (50 : Q) < x) : (20 : Q) < x := by
  rw [Q.lt_iff] at h ⊢
  have h50n : ((50 : Q).num) = 50 := rfl
  have h50d : ((50 : Q).den) = 1 := rfl
  have h20n : ((20 : Q).num) = 20 := rfl
  have h20d : ((20 : Q).den) = 1 := rfl
  rw [h50n, h50d] at h
  rw [h20n, h20d]
  omega

/-- C4: for a metrics dict with `total_rows = N > 0` and one column `c`,
the detector emits a `high_null_percentage` issue of severity `medium`
exactly when `null_count/N·100` lies in `(20, 50]` (so 50.0% is `medium`),
severity `high` exactly when it exceeds 50, and no such issue at or below
20% — both thresholds are strict `>`. -/
theorem detect_quality_null_thresholds (c : String) (s : StatsDict)
    (si : SchemaInfo) (N : Nat) (hN : 0 < N) :
    ((20 : Q) < Q.ofNat (s.null_count.getD 0) / Q.ofNat N * 100 →
      Q.ofNat (s.null_count.getD 0) / Q.ofNat N * 100 ≤ (50 : Q) →
      nullSeverities
        { total_rows := some N, column_stats := some [(c, s)],
          schema_info := some si } c = ["medium"]) ∧
    ((50 : Q) < Q.ofNat (s.null_count.getD 0) / Q.ofNat N * 100 →
      nullSeverities
        { total_rows := some N, column_stats := some [(c, s)],
          schema_info := some si } c = ["high"]) ∧
    (Q.ofNat (s.null_count.getD 0) / Q.ofNat N * 100 ≤ (20 : Q) →
      nullSeverities
        { total_rows := some N, column_stats := some [(c, s)],
          schema_info := some si } c = []) := by
  have hNne : N ≠ 0 := Nat.pos_iff_ne_zero.mp hN
  have hnc0 : (20 : Q) < Q.ofNat (s.null_count.getD 0) / Q.ofNat N * 100 →
      0 < s.null_count.getD 0 := by
    intro h20
    by_contra hz
    have hz0 : s.null_count.getD 0 = 0 := Nat.eq_zero_of_not_pos hz
    rw [hz0, Q.zero_div, Q.zero_mul_q] at h20
    exact Q.not_twenty_lt_zero h20
  have e1 : ¬(("mixed_data_types" : String) = "high_null_percentage") := by decide
  have e2 : ¬(("inconsistent_casing" : String) = "high_null_percentage") := by decide
  have e3 : ¬(("special_characters" : String) = "high_null_percentage") := by decide
  have e4 : ¬(("high_cardinality" : String) = "high_null_percentage") := by decide
  refine ⟨?_, ?_, ?_⟩
  · intro h20 h50
    unfold nullSeverities detectQualityIssues
    simp only [Option.getD_some, if_neg hNne]
    unfold columnIssues
    simp only [Option.getD_some, List.map_cons, List.map_nil, List.flatten,
      List.append_nil, if_pos (And.intro (hnc0 h20) hN), if_pos h20,
      if_neg (Q.not_lt_of_le h50)]
    split_ifs <;> simp [List.filter_append, List.filter, e1, e2, e3, e4]
  · intro h50
    have h20 : (20 : Q) < Q.ofNat (s.null_count.getD 0) / Q.ofNat N * 100 :=
      Q.twenty_lt_of_fifty_lt
        (Q.mul_den_pos (Q.ofNat (s.null_count.getD 0) / Q.ofNat N) 100) h50
    unfold nullSeverities detectQualityIssues
    simp only [Option.getD_some, if_neg hNne]
    unfold columnIssues
    simp only [Option.getD_some, List.map_cons, List.map_nil, List.flatten,
      List.append_nil, if_pos (And.intro (hnc0 h20) hN), if_pos h20,
      if_pos h50]
    split_ifs <;> simp [List.filter_append, List.filter, e1, e2, e3, e4]
  · intro hle
    unfold nullSeverities detectQualityIssues
    simp only [Option.getD_some, if_neg hNne]
    unfold columnIssues
    simp only [Option.getD_some, List.map_cons, List.map_nil, List.flatten,
      List.append_nil]
    by_cases hcond : 0 < s.null_count.getD 0 ∧ 0 < N
    · rw [if_pos hcond, if_neg (Q.not_lt_of_le hle)]
      split_ifs <;> simp [List.filter_append, List.filter, e1, e2, e3, e4]
    · rw [if_neg hcond]
      split_ifs <;> simp [List.filter_append, List.filter, e1, e2, e3, e4]

/-- Witness for C4 at the spec's example: a 10-row column with exactly 5
nulls is at the 50.0% boundary and gets severity `medium`; one with 6 nulls
(60%) gets `high`; one with 2 nulls (20.0%) triggers nothing. -/
theorem detect_quality_null_thresholds_witness :
    (nullSeverities
      { total_rows := some 10,
        column_stats := some [("age", ({ null_count := some 5 } : StatsDict))],
        schema_info := some {} } "age" = ["medium"]) ∧
    (nullSeverities
      { total_rows := some 10,
        column_stats := some [("age", ({ null_count := some 6 } : StatsDict))],
        schema_info := some {} } "age" = ["high"]) ∧
    (nullSeverities
      { total_rows := some 10,
        column_stats := some [("age", ({ null_count := some 2 } : StatsDict))],
        schema_info := some {} } "age" = []) := by
  refine ⟨?_, ?_, ?_⟩
  · exact (detect_quality_null_thresholds "age" ({ null_count := some 5 } : StatsDict) {} 10
      (by decide)).1 (by decide) (by decide)
  · exact (detect_quality_null_thresholds "age" ({ null_count := some 6 } : StatsDict) {} 10
      (by decide)).2.1 (by decide)
  · exact (detect_quality_null_thresholds "age" ({ null_count := some 2 } : StatsDict) {} 10
      (by decide)).2.2 (by decide)

/-- C10: `detect_quality_issues` writes only the `data_quality_issues` key —
`total_rows`, `total_columns`, `column_stats`, `schema_info` and
`analysis_info` are unchanged — and, because the issue list is rebuilt from
those unchanged inputs, running the detector twice equals running it once. -/
theorem detect_quality_issues_frame_idempotent (m : MetricsDict) :
    (detectQualityIssues m).total_rows = m.total_rows ∧
    (detectQualityIssues m).total_columns = m.total_columns ∧
    (detectQualityIssues m).column_stats = m.column_stats ∧
    (detectQualityIssues m).schema_info = m.schema_info ∧
    (detectQualityIssues m).analysis_info = m.analysis_info ∧
    detectQualityIssues (detectQualityIssues m) = detectQualityIssues m := by
  refine ⟨?_, ?_, ?_, ?_, ?_, ?_⟩
  · unfold detectQualityIssues
    split <;> rfl
  · unfold detectQualityIssues
    split <;> rfl
  · unfold detectQualityIssues
    split <;> rfl
  · unfold detectQualityIssues
    split <;> rfl
  · unfold detectQualityIssues
    split <;> rfl
  · by_cases h : m.total_rows.getD 0 = 0
    · simp [detectQualityIssues, h]
    · simp [detectQualityIssues, h]

/-! ## `_analyze_chunk` / `_combine_chunk_metrics` (core/data_analyzer.py)

A polars chunk is a list of named columns, each carrying its polars dtype,
the original source dtype label (`original_dtypes`), and its cells in
canonical rendered form. -/

inductive PlDtype where
  | int64 | int32 | float64 | float32 | datetime | date | other
  deriving DecidableEq

/-- `str(series.dtype)` for each modelled polars dtype. -/
def plDtypeStr : PlDtype → String
  | .int64 => "Int64"
  | .int32 => "Int32"
  | .float64 => "Float64"
  | .float32 => "Float32"
  | .datetime => "Datetime(time_unit=\x27us\x27, time_zone=None)"
  | .date => "Date"
  | .other => "String"

structure PColumn where
  name : String
  dtype : PlDtype
  sqlType : String
  cells : List (Option String)
  deriving DecidableEq

/-- `pat` is a prefix of `l`. -/
def isPrefixList : List Char → List Char → Bool
  | _, [] => true
  | [], _ :: _ => false
  | c :: l, p :: ps => c = p && isPrefixList l ps

/-- Substring containment (`pat in s` on Python strings). -/
def listContainsSub : List Char → List Char → Bool
  | l, [] => (fun _ => true) l
  | [], _ :: _ => false
  | c :: rest, pat => isPrefixList (c :: rest) pat || listContainsSub rest pat

/-- `pat in s` for strings. -/
def strContains (s pat : String) : Bool := listContainsSub s.data pat.data

/-- `%H:%M:%S` of an ISO-rendered datetime cell. -/
def hmsOfIso (s : String) : String := String.mk ((s.data.drop 11).take 8)

/-- The schema bucket `_analyze_chunk` assigns to one column: polars
numeric dtypes are `numeric`; a Datetime column is `datetime` when any of
the first 10 non-null values has a non-midnight time component, else
`date`; Date is `date`; otherwise the original source dtype label decides
`numeric` via the keyword set `int|float|decimal|numeric`, else `string`. -/
def chunkBucket (origDtypes : List (String × String)) (c : PColumn) : String :=
  match c.dtype with
  | .int64 => "numeric"
  | .int32 => "numeric"
  | .float64 => "numeric"
  | .float32 => "numeric"
  | .datetime =>
    let sampleVals := ((c.cells.filterMap id).take 10).map hmsOfIso
    if sampleVals.any (fun t => t ≠ "00:00:00") then "datetime" else "date"
  | .date => "date"
  | .other =>
    let sqlType := strLower ((alookup origDtypes c.name).getD "")
    if strContains sqlType "int" || strContains sqlType "float" ||
        strContains sqlType "decimal" || strContains sqlType "numeric" then
      "numeric"
    else "string"

/-- A per-chunk metrics dict exactly as `_analyze_chunk` returns it: the
keys present are `schema_info`, `column_stats` and `data_quality_issues` —
in particular there is **no** top-level `total_rows` key.  The remaining
fields model keys `_combine_chunk_metrics` probes with `.get` /
`in`-checks (`total_rows`, `total_columns`, `analysis_info`, `metadata`,
`schema`, `table_name`, `database`, `columns`). -/
structure ChunkMetricsDict where
  total_rows : Option Nat := none
  total_columns : Option Nat := none
  schema_info : Option SchemaInfo := none
  column_stats : List (String × StatsDict) := []
  data_quality_issues : List QualityIssue := []
  analysis_info : Option AnalysisInfo := none
  metadata : Option String := none
  schemaName : Option String := none
  table_name : Option String := none
  database : Option String := none
  columnsKey : Option (List String) := none
  deriving DecidableEq

/-- `_analyze_chunk`: bucket every column into `schema_info` and compute
its stats.  The returned dict carries no top-level `total_rows`. -/
def analyzeChunk (origDtypes : List (String × String))
    (cols : List PColumn) : ChunkMetricsDict :=
  { schema_info := some
      { numeric_columns :=
          (cols.filter (fun c => chunkBucket origDtypes c = "numeric")).map (fun c => c.name),
        string_columns :=
          (cols.filter (fun c => chunkBucket origDtypes c = "string")).map (fun c => c.name),
        date_columns :=
          (cols.filter (fun c => chunkBucket origDtypes c = "date")).map (fun c => c.name),
        datetime_columns :=
          (cols.filter (fun c => chunkBucket origDtypes c = "datetime")).map (fun c => c.name),
        nested_columns := [], array_columns := [], flattened_columns := [] },
    column_stats :=
      cols.map (fun c => (c.name, computeStats c.name (plDtypeStr c.dtype) c.cells)),
    data_quality_issues := [] }

/-- The dataset-level dict `_combine_chunk_metrics` builds (`none` fields
model absent keys). -/
structure CombinedMetrics where
  total_rows : Nat
  total_columns : Nat
  column_stats : List (String × StatsDict)
  data_quality_issues : List QualityIssue
  analysis_info : Option AnalysisInfo
  metadata : Option String
  schemaName : Option String
  table_name : Option String
  database : Option String
  columnsKey : Option (List String)
  schema_info : Option SchemaInfo
  deriving DecidableEq

/-- Merge of one column's per-chunk stats objects: seed with the **first**
chunk's stats, overwrite the three counts with sums, then recompute
`null_percentage` when the summed total is positive and
`unique_percentage` when additionally some non-null rows remain (otherwise
the seeded, stale percentages stay). -/
def mergeColStats : List StatsDict → Option StatsDict
  | [] => none
  | c0 :: rest =>
    let all := c0 :: rest
    let tr : Nat := (all.map (fun s => s.total_rows.getD 0)).sum
    let nc : Nat := (all.map (fun s => s.null_count.getD 0)).sum
    let uc : Nat := (all.map (fun s => s.unique_count.getD 0)).sum
    let base := { c0 with
      total_rows := some tr, null_count := some nc, unique_count := some uc }
    if 0 < tr then
      let base2 := { base with
        null_percentage := some (round2 (Q.ofNat nc / Q.ofNat tr * 100)) }
      if 0 < (tr : Int) - (nc : Int) then
        some { base2 with
          unique_percentage := some (round2 (Q.ofNat uc / Q.ofNat (tr - nc) * 100)) }
      else some base2
    else some base

/-- The distinct column names over all chunks (a Python set; set order is
not semantic, modelled as first appearance). -/
def allChunkColumns (cms : List ChunkMetricsDict) : List String :=
  dedupFA ((cms.map (fun m => m.column_stats.map Prod.fst)).flatten)

/-- Per-chunk stats present for `col`, in chunk order. -/
def colChunks (cms : List ChunkMetricsDict) (col : String) : List StatsDict :=
  cms.filterMap (fun m => alookup m.column_stats col)

/-- `_combine_chunk_metrics`.  On an empty list Python returns `{}`,
modelled as `none`.  `total_rows` is `sum(m.get("total_rows", 0))`;
`total_columns`, `analysis_info`, `metadata` and the preserved keys
(`schema`, `table_name`, `database`, `columns`, `schema_info`) come from
the **first** chunk; `schema_info` is unioned across chunks only when the
first chunk lacks it.  Each column's stats merge via `mergeColStats`. -/
def combineChunkMetrics (cms : List ChunkMetricsDict) : Option CombinedMetrics :=
  match cms with
  | [] => none
  | first :: _ =>
    let unionCat : (SchemaInfo → List String) → List String := fun f =>
      dedupFA ((cms.map (fun m => f (m.schema_info.getD {}))).flatten)
    some
      { total_rows := (cms.map (fun m => m.total_rows.getD 0)).sum,
        total_columns := first.total_columns.getD 0,
        column_stats := (allChunkColumns cms).filterMap (fun col =>
          (mergeColStats (colChunks cms col)).map (fun st => (col, st))),
        data_quality_issues := [],
        analysis_info := some (first.analysis_info.getD {}),
        metadata := first.metadata,
        schemaName := first.schemaName,
        table_name := first.table_name,
        database := first.database,
        columnsKey := first.columnsKey,
        schema_info :=
          match first.schema_info with
          | some s => some s
          | none => some
              { numeric_columns := unionCat (fun s => s.numeric_columns),
                string_columns := unionCat (fun s => s.string_columns),
                date_columns := unionCat (fun s => s.date_columns),
                datetime_columns := unionCat (fun s => s.datetime_columns),
                nested_columns := unionCat (fun s => s.nested_columns),
                array_columns := unionCat (fun s => s.array_columns),
                flattened_columns := unionCat (fun s => s.flattened_columns) } }

/-- C1: `_analyze_chunk` returns no top-level `total_rows` key, so for any
non-empty list of chunks analysed by it, `_combine_chunk_metrics` sums the
`.get("total_rows", 0)` defaults and reports a merged `total_rows` of `0`
— not the dataset's row count.  (Per-column stats do carry per-chunk
totals, but the dataset-level field the spec promises is `0`.) -/
theorem analyze_chunk_combine_total_rows_zero
    (origDtypes : List (String × String))
    (c : List PColumn) (cs : List (List PColumn)) :
    (analyzeChunk origDtypes c).total_rows = none ∧
    (combineChunkMetrics ((c :: cs).map (analyzeChunk origDtypes))).map
        (fun m => m.total_rows) = some 0 := by
  constructor
  · rfl
  · show some ((((c :: cs).map (analyzeChunk origDtypes)).map
        (fun m => m.total_rows.getD 0)).sum) = some 0
    rw [List.map_map]
    congr 1
    apply List.sum_eq_zero
    intro x hx
    rcases List.mem_map.mp hx with ⟨ch, _, rfl⟩
    rfl

/-- First chunk of the C8 counterexample: one string column `a` whose only
value is `"x"`. -/
def chunkX : List PColumn := [⟨"a", .other, "varchar", [some "x"]⟩]

/-- Second chunk of the C8 counterexample: same column, value `"y"`. -/
def chunkY : List PColumn := [⟨"a", .other, "varchar", [some "y"]⟩]

/-- C8 counterexample: `_combine_chunk_metrics` is **not** invariant to
chunk order — merging the two one-row chunks `["x"]` and `["y"]` of column
`a` in the two orders yields different merged stats: the seeded
`sample_values` field comes from whichever chunk is first (`["x"]` one
way, `["y"]` the other). -/
theorem combine_chunk_metrics_not_order_invariant :
    ((combineChunkMetrics [analyzeChunk [] chunkX, analyzeChunk [] chunkY]).bind
        (fun m => alookup m.column_stats "a")).map (fun s => s.sample_values)
      ≠ ((combineChunkMetrics [analyzeChunk [] chunkY, analyzeChunk [] chunkX]).bind
        (fun m => alookup m.column_stats "a")).map (fun s => s.sample_values) := by
  decide

theorem mem_dedupFAAux {α : Type} [DecidableEq α] (a : α) :
    ∀ (l seen : List α), a ∈ dedupFAAux seen l ↔ a ∈ l ∧ a ∉ seen := by
  intro l
  induction l with
  | nil => intro seen; simp [dedupFAAux]
  | cons x xs ih =>
    intro seen
    by_cases hx : x ∈ seen
    · rw [dedupFAAux, if_pos hx, ih]
      constructor
      · rintro ⟨hmem, hns⟩
        exact ⟨List.mem_cons_of_mem _ hmem, hns⟩
      · rintro ⟨hmem, hns⟩
        rcases List.mem_cons.mp hmem with rfl | hmem
        · exact absurd hx hns
        · exact ⟨hmem, hns⟩
    · rw [dedupFAAux, if_neg hx]
      constructor
      · intro hmem
        rcases List.mem_cons.mp hmem with rfl | hmem
        · exact ⟨List.mem_cons_self _ _, hx⟩
        · rcases (ih (x :: seen)).mp hmem with ⟨h1, h2⟩
          refine ⟨List.mem_cons_of_mem _ h1, fun hs => h2 (List.mem_cons_of_mem _ hs)⟩
      · rintro ⟨hmem, hns⟩
        rcases List.mem_cons.mp hmem with rfl | hmem
        · exact List.mem_cons_self _ _
        · by_cases hax : a = x
          · subst hax
            exact List.mem_cons_self _ _
          · refine List.mem_cons_of_mem _ ((ih (x :: seen)).mpr ⟨hmem, ?_⟩)
            intro hs
            rcases List.mem_cons.mp hs with h | h
            · exact hax h
            · exact hns h

theorem mem_dedupFA {α : Type} [DecidableEq α] (a : α) (l : List α) :
    a ∈ dedupFA l ↔ a ∈ l := by
  rw [dedupFA, mem_dedupFAAux]
  simp

theorem alookup_keyed_filterMap {β : Type} (xs : List String)
    (g : String → Option β) (col : String) :
    alookup (xs.filterMap (fun c => (g c).map (fun v => (c, v)))) col
      = if col ∈ xs then g col else none := by
  induction xs with
  | nil => simp [alookup]
  | cons c rest ih =>
    cases hg : g c with
    | none =>
      rw [List.filterMap_cons_none (by simp [hg]), ih]
      by_cases hc : c = col
      · subst hc
        by_cases hmem : c ∈ rest
        · simp [hmem, hg]
        · simp [hmem, hg]
      · have hiff : (col ∈ c :: rest) ↔ (col ∈ rest) := by
          constructor
          · intro h
            rcases List.mem_cons.mp h with h1 | h1
            · exact absurd h1.symm hc
            · exact h1
          · exact List.mem_cons_of_mem _
        rw [if_congr hiff rfl rfl]
    | some v =>
      have hcons : List.filterMap (fun c => Option.map (fun v => (c, v)) (g c)) (c :: rest)
          = (c, v) :: List.filterMap (fun c => Option.map (fun v => (c, v)) (g c)) rest := by
        rw [List.filterMap_cons]
        simp [hg]
      rw [hcons]
      rw [alookup]
      by_cases hc : c = col
      · rw [if_pos hc]
        subst hc
        simp [hg]
      · rw [if_neg hc, ih]
        have hiff : (col ∈ c :: rest) ↔ (col ∈ rest) := by
          constructor
          · intro h
            rcases List.mem_cons.mp h with h1 | h1
            · exact absurd h1.symm hc
            · exact h1
          · exact List.mem_cons_of_mem _
        rw [if_congr hiff rfl rfl]

/-- The three summed count fields of a non-empty column merge. -/
theorem mergeColStats_counts (c0 : StatsDict) (r : List StatsDict) :
    (mergeColStats (c0 :: r)).map
        (fun s => (s.total_rows, s.null_count, s.unique_count))
      = some (some (((c0 :: r).map (fun s => s.total_rows.getD 0)).sum),
              some (((c0 :: r).map (fun s => s.null_count.getD 0)).sum),
              some (((c0 :: r).map (fun s => s.unique_count.getD 0)).sum)) := by
  rw [mergeColStats]
  split_ifs <;> rfl

/-- Count projections of a column merge are permutation-invariant. -/
theorem mergeColStats_counts_perm {cs cs2 : List StatsDict} (h : cs.Perm cs2) :
    (mergeColStats cs).map (fun s => (s.total_rows, s.null_count, s.unique_count))
      = (mergeColStats cs2).map
          (fun s => (s.total_rows, s.null_count, s.unique_count)) := by
  cases cs with
  | nil =>
    have : cs2 = [] := h.symm.eq_nil
    rw [this]
  | cons c0 r =>
    cases cs2 with
    | nil => exact absurd h.eq_nil (by simp)
    | cons d0 r2 =>
      rw [mergeColStats_counts, mergeColStats_counts]
      have h1 := (h.map (fun s => s.total_rows.getD 0)).sum_eq
      have h2 := (h.map (fun s => s.null_count.getD 0)).sum_eq
      have h3 := (h.map (fun s => s.unique_count.getD 0)).sum_eq
      rw [h1, h2, h3]

/-- C8 (amended): permuting the chunk list — as happens when parallel
workers complete in a different order — preserves exactly the **summed**
parts of the merge: the dataset-level `total_rows` and every column's
summed `total_rows`/`null_count`/`unique_count`.  The seeded parts
(`sample_values`, `data_type`, `value_counts`, `total_columns`,
`schema_info`, `analysis_info`, ...) come from whichever chunk is first
and are not order-invariant (`combine_chunk_metrics_not_order_invariant`).
-/
theorem combine_chunk_metrics_perm_counts
    (l l2 : List ChunkMetricsDict) (h : l.Perm l2) :
    (combineChunkMetrics l).map (fun m => m.total_rows)
      = (combineChunkMetrics l2).map (fun m => m.total_rows) ∧
    ∀ col,
      (combineChunkMetrics l).map (fun m =>
        (alookup m.column_stats col).map
          (fun s => (s.total_rows, s.null_count, s.unique_count)))
      = (combineChunkMetrics l2).map (fun m =>
        (alookup m.column_stats col).map
          (fun s => (s.total_rows, s.null_count, s.unique_count))) := by
  cases l with
  | nil =>
    have : l2 = [] := h.symm.eq_nil
    subst this
    exact ⟨rfl, fun _ => rfl⟩
  | cons a l1 =>
    cases l2 with
    | nil => exact absurd h.eq_nil (by simp)
    | cons b l3 =>
      constructor
      · show some ((((a :: l1)).map (fun m => m.total_rows.getD 0)).sum)
          = some ((((b :: l3)).map (fun m => m.total_rows.getD 0)).sum)
        rw [(h.map (fun m => m.total_rows.getD 0)).sum_eq]
      · intro col
        show some ((alookup ((allChunkColumns (a :: l1)).filterMap (fun c =>
            (mergeColStats (colChunks (a :: l1) c)).map (fun st => (c, st)))) col).map _)
          = some ((alookup ((allChunkColumns (b :: l3)).filterMap (fun c =>
            (mergeColStats (colChunks (b :: l3) c)).map (fun st => (c, st)))) col).map _)
        rw [alookup_keyed_filterMap, alookup_keyed_filterMap]
        have hmem : (col ∈ allChunkColumns (a :: l1)) ↔ (col ∈ allChunkColumns (b :: l3)) := by
          rw [allChunkColumns, allChunkColumns, mem_dedupFA, mem_dedupFA]
          constructor
          · intro hm
            rcases List.mem_flatten.mp hm with ⟨s, hs, hcs⟩
            rcases List.mem_map.mp hs with ⟨m, hml, rfl⟩
            exact List.mem_flatten.mpr
              ⟨m.column_stats.map Prod.fst,
               List.mem_map.mpr ⟨m, h.mem_iff.mp hml, rfl⟩, hcs⟩
          · intro hm
            rcases List.mem_flatten.mp hm with ⟨s, hs, hcs⟩
            rcases List.mem_map.mp hs with ⟨m, hml, rfl⟩
            exact List.mem_flatten.mpr
              ⟨m.column_stats.map Prod.fst,
               List.mem_map.mpr ⟨m, h.mem_iff.mpr hml, rfl⟩, hcs⟩
        have hperm : (colChunks (a :: l1) col).Perm (colChunks (b :: l3) col) := by
          unfold colChunks
          exact h.filterMap (fun m => alookup m.column_stats col)
        by_cases hin : col ∈ allChunkColumns (a :: l1)
        · rw [if_pos hin, if_pos (hmem.mp hin)]
          exact congrArg some (mergeColStats_counts_perm hperm)
        · rw [if_neg hin, if_neg (fun hc => hin (hmem.mpr hc))]

/-- Witness for C8 (amended) at the two concrete chunks of the
counterexample: the summed counts agree across the two completion
orders. -/
theorem combine_chunk_metrics_perm_counts_witness :
    (combineChunkMetrics [analyzeChunk [] chunkX, analyzeChunk [] chunkY]).map
        (fun m => m.total_rows)
      = (combineChunkMetrics [analyzeChunk [] chunkY, analyzeChunk [] chunkX]).map
        (fun m => m.total_rows) ∧
    (combineChunkMetrics [analyzeChunk [] chunkX, analyzeChunk [] chunkY]).map
        (fun m => (alookup m.column_stats "a").map
          (fun s => (s.total_rows, s.null_count, s.unique_count)))
      = (combineChunkMetrics [analyzeChunk [] chunkY, analyzeChunk [] chunkX]).map
        (fun m => (alookup m.column_stats "a").map
          (fun s => (s.total_rows, s.null_count, s.unique_count))) := by
  have h := combine_chunk_metrics_perm_counts
    [analyzeChunk [] chunkX, analyzeChunk [] chunkY]
    [analyzeChunk [] chunkY, analyzeChunk [] chunkX]
    (List.Perm.swap (analyzeChunk [] chunkY) (analyzeChunk [] chunkX) [])
  exact ⟨h.1, h.2 "a"⟩

/-! ## Expression machinery (data_validator.py)

`preprocess_expression` / `evaluate_expression` / `validate_data`, with
`df.eval` modelled by a small arithmetic evaluator over the dataframe. -/

/-- Word characters of the regex class `\w` (ASCII). -/
def isWordChar (c : Char) : Bool := c.isAlpha || c.isDigit || c = '_'

/-- `expression.replace("=", "==")` — the "clean up" step of
`evaluate_expression`.  Python `str.replace` rewrites **every** occurrence
of `=`, including those already inside `==`, `>=`, `<=`. -/
def cleanEqualsAux : List Char → List Char
  | [] => []
  | '=' :: rest => '=' :: '=' :: cleanEqualsAux rest
  | c :: rest => c :: cleanEqualsAux rest

/-- `expression.replace("=", "==")` on strings. -/
def cleanEquals (s : String) : String := String.mk (cleanEqualsAux s.data)

/-- Trailing whitespace removed (the final `\b` of the token regex). -/
def trimTrailingSpaces (l : List Char) : List Char :=
  (l.reverse.dropWhile isPySpace).reverse

/-- Within a maximal run of word-or-space characters, the token
`\b[A-Za-z_][A-Za-z0-9_\s]*\b` grabs from the first letter/underscore that
sits at a word boundary to the last word character of the run. -/
def findTokenInSeg : Bool → List Char → Option (List Char)
  | _, [] => none
  | prevIsWord, c :: rest =>
    if (c.isAlpha || c = '_') && !prevIsWord then
      some (trimTrailingSpaces (c :: rest))
    else findTokenInSeg (isWordChar c) rest

/-- Split the expression at characters that are neither word characters nor
whitespace (the only places a candidate token can end). -/
def splitSegsAux : List Char → List Char → List (List Char)
  | acc, [] => [acc.reverse]
  | acc, c :: rest =>
    if isWordChar c || isPySpace c then splitSegsAux (c :: acc) rest
    else acc.reverse :: splitSegsAux [] rest

/-- `re.findall(r'\b[A-Za-z_][A-Za-z0-9_\s]*\b', expression)` followed by
`.strip()` — the candidate column names of `preprocess_expression`
(column names may contain spaces, so a token spans them). -/
def exprTokens (expression : String) : List String :=
  ((splitSegsAux [] expression.data).filterMap (findTokenInSeg false)).map String.mk

/-- One pass of `re.sub(r'\b' + re.escape(old) + r'\b', new, s)` (equally of
the lookaround form `(?<!\w)old(?!\w)` used for whole-word renames): every
occurrence of `old` with no word character adjacent on either side is
replaced.  All patterns substituted by the source start and end with word
characters, where the two regex forms coincide.  After a match, scanning
resumes past it; the character left of the next position is the last
character of `old`, a word character. -/
def replaceDelimAux (oldL newL : List Char) : Nat → Bool → List Char → List Char
  | 0, _, l => l
  | _ + 1, _, [] => []
  | fuel + 1, prevW, c :: rest =>
    let after := (c :: rest).drop oldL.length
    let boundaryAfter := match after with
      | [] => true
      | d :: _ => !isWordChar d
    if !prevW && oldL ≠ [] && isPrefixList (c :: rest) oldL && boundaryAfter then
      newL ++ replaceDelimAux oldL newL fuel true after
    else c :: replaceDelimAux oldL newL fuel (isWordChar c) rest

/-- Whole-word substitution on strings. -/
def wordDelimitedReplace (old new s : String) : String :=
  String.mk (replaceDelimAux old.data new.data (s.data.length + 1) false s.data)

/-- Backtick character (pandas `df.eval` quoting). -/
def btick : String := String.mk [Char.ofNat 96]

/-- `escape_column_name`: wrap a name containing a space or one of the
characters `+ - / * ( ) [ ]` in backticks for `df.eval`. -/
def escapeColumnName (col : String) : String :=
  if col.data.contains ' ' ||
      col.data.any (fun c => c = '+' || c = '-' || c = '/' || c = '*' ||
        c = '(' || c = ')' || c = '[' || c = ']') then
    btick ++ col ++ btick
  else col

/-- Python `str.isidentifier` (keywords aside, which never arise here). -/
def isPyIdentifier (s : String) : Bool :=
  match s.data with
  | [] => false
  | c :: rest => (c.isAlpha || c = '_') && rest.all isWordChar

/-- Whether the string contains one of `* + - /` (the `re.search` class
of the expression guard). -/
def hasOpChar (s : String) : Bool :=
  s.data.any (fun c => c = '*' || c = '+' || c = '-' || c = '/')

/-- The repeated guard "contains an arithmetic operator and is not an
identifier" that decides whether `column_B` is an expression. -/
def isExpressionStr (s : String) : Bool := hasOpChar s && !(isPyIdentifier s)

/-- `detect_column_type(df, column)` (string parsing fixed to the pandas
model `pdToDatetimeStr`; the modelled flows always pass existing columns,
so the missing-column default is never observed). -/
def detectColumnTypeDf (df : Df) (col : String) : ColTypeInfo :=
  detectColumnType pdToDatetimeStr ((alookup df col).getD (.strCol []))

/-- `int64` value of `NaT` under `.astype(np.int64)`. -/
def natInt64 : Int := -(2 ^ 63)

/-- The Excel-serial pattern `^\d{5,6}(\.\d+)?$`. -/
def excelSerialB (s : String) : Bool :=
  match s.data.splitOn '.' with
  | [a] => a.all Char.isDigit && decide (5 ≤ a.length) && decide (a.length ≤ 6)
  | [a, b] => a.all Char.isDigit && decide (5 ≤ a.length) && decide (a.length ≤ 6) &&
      b ≠ [] && b.all Char.isDigit
  | _ => false

/-- Full ISO datetime `YYYY-MM-DD HH:MM:SS` to nanoseconds since epoch. -/
def parseIsoDateTime (s : String) : Option Int :=
  match s.data with
  | [y1, y2, y3, y4, '-', m1, m2, '-', d1, d2, ' ',
     h1, h2, ':', mi1, mi2, ':', s1, s2] =>
    if [y1, y2, y3, y4, m1, m2, d1, d2, h1, h2, mi1, mi2, s1, s2].all Char.isDigit then
      let m := digitsToNat [m1, m2]
      let d := digitsToNat [d1, d2]
      let hh := digitsToNat [h1, h2]
      let mi := digitsToNat [mi1, mi2]
      let ss := digitsToNat [s1, s2]
      if 1 ≤ m ∧ m ≤ 12 ∧ 1 ≤ d ∧ d ≤ 31 ∧ hh ≤ 23 ∧ mi ≤ 59 ∧ ss ≤ 59 then
        some ((daysFromCivil (digitsToNat [y1, y2, y3, y4] : Int) m d * 86400
          + (hh : Int) * 3600 + (mi : Int) * 60 + (ss : Int)) * 1000000000)
      else none
    else none
  | _ => none

/-- `pd.to_datetime(series, format=fmt, errors='coerce')` per string value:
only the two directive formats the flows can supply parse anything; a
format string without `%` directives (such as a `sample_format` example
value) matches nothing. -/
def formatParse (fmt : String) (s : String) : Option Int :=
  if fmt = "%Y-%m-%d" then pdToDatetimeStr s
  else if fmt = "%Y-%m-%d %H:%M:%S" then parseIsoDateTime s
  else none

/-- Remove every occurrence of a substring (the `UTC`/`GMT` strip). -/
def removeSubAux (pat : List Char) : Nat → List Char → List Char
  | 0, l => l
  | _ + 1, [] => []
  | fuel + 1, c :: rest =>
    if pat ≠ [] && isPrefixList (c :: rest) pat then
      removeSubAux pat fuel ((c :: rest).drop pat.length)
    else c :: removeSubAux pat fuel rest

/-- Remove every occurrence of `pat` in `s`. -/
def removeAllSub (pat s : String) : String :=
  String.mk (removeSubAux pat.data (s.data.length + 1) s.data)

/-- The flexible branch of `convert_to_datetime` on an object column:
strip `UTC`/`GMT`; if **any** value matches the 5–6 digit Excel-serial
pattern, convert the whole series as day counts from 1899-12-30; else
flexible parsing (the ISO model `pdToDatetimeStr`). -/
def flexibleDatetime (vs : List (Option String)) : List (Option Int) :=
  let cleaned := vs.map (Option.map (fun s => removeAllSub "UTC" (removeAllSub "GMT" s)))
  if cleaned.any (fun v => (v.map excelSerialB).getD false) then
    cleaned.map (fun v => (v.bind parseDecimal).map (fun q =>
      (q.trunc - 25569) * 86400 * 1000000000))
  else cleaned.map (fun v => v.bind pdToDatetimeStr)

/-- `convert_to_datetime` on one column.  On numeric dtypes pandas reads
the values as nanoseconds since the epoch whether or not a format string
is supplied (a format applies to strings only), so the format/fallback
dance collapses to the epoch conversion.  On an object column a supplied
format is tried first and flexible parsing takes over when more than half
the values fail. -/
def convertToDatetimeCol (c : ColData) (format : Option String) : List (Option Int) :=
  match c with
  | .dtCol vs => vs
  | .numCol _ vs => vs.map (Option.map Q.trunc)
  | .strCol vs =>
    match format with
    | some fmt =>
      let parsed := vs.map (fun v => v.bind (formatParse fmt))
      let naCount := (parsed.filter (fun v => v.isNone)).length
      if 2 * naCount > vs.length then flexibleDatetime vs else parsed
    | none => flexibleDatetime vs

/-- `convert_to_datetime(df, column, format)`. -/
def convertToDatetime (df : Df) (col : String) (format : Option String) :
    List (Option Int) :=
  convertToDatetimeCol ((alookup df col).getD (.strCol [])) format

/-- `s.replace(' ', '_')`. -/
def spacesToUnderscores (s : String) : String :=
  String.mk (s.data.map (fun c => if c = ' ' then '_' else c))

/-- The boolean token set of the `preprocess_expression` boolean branch. -/
def boolTruthy : List String := ["true", "yes", "y", "1", "t"]

/-- `pd.to_numeric(series, errors='coerce')` on one column. -/
def toNumericCol : ColData → List (Option Q)
  | .strCol vs => vs.map (fun v => v.bind parseDecimal)
  | .numCol _ vs => vs
  | .dtCol vs => vs.map (Option.map Q.ofInt)

/-- The synthetic numeric column `preprocess_expression` materializes for a
referenced column, per its detected type: datetime → Unix epoch seconds
(`astype(int64) // 10**9`), integer → `to_numeric(...).fillna(0).astype(int64)`,
other numeric → `convert_to_decimal`, boolean → 0/1, string/categorical →
`convert_to_decimal`, defaulting to the constant 0 when every value fails. -/
def preprocessTempCol (df : Df) (col : String) (decimalPlaces : Option Nat)
    (dateFormat : Option String) : ColData :=
  let colData := (alookup df col).getD (.strCol [])
  let colInfo := detectColumnTypeDf df col
  if colInfo.base_type = "datetime" then
    let dtSeries := convertToDatetime df col
      (match dateFormat with | some f => some f | none => colInfo.sample_format)
    .numCol true (dtSeries.map (fun v =>
      some (Q.ofInt ((v.getD natInt64).fdiv 1000000000))))
  else if colInfo.base_type = "numeric" then
    if colInfo.specific_type = "integer" then
      .numCol true ((toNumericCol colData).map (fun v =>
        some (Q.ofInt ((v.getD 0).trunc))))
    else .numCol false (convertToDecimalCol colData decimalPlaces)
  else if colInfo.base_type = "boolean" then
    .numCol true ((cellStrs colData).map (fun s =>
      some (if strLower s ∈ boolTruthy then (1 : Q) else 0)))
  else
    let conv := convertToDecimalCol colData decimalPlaces
    if conv.all (fun v => v.isNone) then
      .numCol true (conv.map (fun _ => some (0 : Q)))
    else .numCol false conv

/-- `preprocess_expression`: apply the optional column-name mapping, find
candidate column tokens, and for each that names a dataframe column
materialize its `__numeric_<col>` synthetic column in the dataframe and
substitute the (escaped) synthetic name into the expression.  Returns the
mutated dataframe, the rewritten expression, and the temp-column names.
The created temp columns are numeric by construction, so the source's
is_numeric_dtype re-coercions are the identity. -/
def preprocessExpression (df : Df) (expression : String)
    (decimalPlaces : Option Nat) (dateFormat : Option String)
    (columnMapping : List (String × String)) : Df × String × List String :=
  let modifiedExpression :=
    columnMapping.foldl (fun e p => wordDelimitedReplace p.1 p.2 e) expression
  let step : Df × String × List String → String → Df × String × List String :=
    fun acc col =>
      let df := acc.1
      let expr := acc.2.1
      let temps := acc.2.2
      if (alookup df col).isSome then
        let tempCol := "__numeric_" ++ spacesToUnderscores col
        let df2 := dfSet df tempCol (preprocessTempCol df col decimalPlaces dateFormat)
        let expr2 := wordDelimitedReplace col (escapeColumnName tempCol) expr
        (df2, expr2, temps ++ [tempCol])
      else acc
  (exprTokens modifiedExpression).foldl step (df, modifiedExpression, [])

/-! ### `df.eval` -/

/-- Tokens of the small expression language `df.eval` sees here. -/
inductive ETok where
  | ident (s : String)
  | num (q : Q)
  | op (s : String)
  deriving DecidableEq

/-- Lexer (fuel-bounded; fuel `length + 1` always suffices).  Comparison
characters munch a following `=` greedily, so `====` lexes as `==` `==`. -/
def lexAux : Nat → List Char → Option (List ETok)
  | 0, _ => none
  | _ + 1, [] => some []
  | fuel + 1, c :: rest =>
    if isPySpace c then lexAux fuel rest
    else if c.isAlpha || c = '_' then
      (lexAux fuel ((c :: rest).dropWhile isWordChar)).map
        (fun ts => .ident (String.mk ((c :: rest).takeWhile isWordChar)) :: ts)
    else if c.isDigit then
      match parseDecimal (String.mk ((c :: rest).takeWhile (fun d => d.isDigit || d = '.'))) with
      | some q => (lexAux fuel ((c :: rest).dropWhile (fun d => d.isDigit || d = '.'))).map
          (fun ts => .num q :: ts)
      | none => none
    else if c = '+' || c = '-' || c = '*' || c = '/' || c = '(' || c = ')' then
      (lexAux fuel rest).map (fun ts => .op (String.mk [c]) :: ts)
    else if c = '=' || c = '<' || c = '>' || c = '!' then
      match rest with
      | '=' :: rest2 => (lexAux fuel rest2).map (fun ts => .op (String.mk [c, '=']) :: ts)
      | _ =>
        if c = '<' || c = '>' then
          (lexAux fuel rest).map (fun ts => .op (String.mk [c]) :: ts)
        else none
    else none

/-- Elementwise binary arithmetic with NaN (`none`) propagation. -/
def zipArith (f : Q → Q → Q) (a b : List (Option Q)) : List (Option Q) :=
  List.zipWith (fun x y => match x, y with
    | some p, some q => some (f p q)
    | _, _ => none) a b

/-- Elementwise comparison; NaN compares `False` (0), matching pandas. -/
def zipCmp (f : Q → Q → Bool) (a b : List (Option Q)) : List (Option Q) :=
  List.zipWith (fun x y => match x, y with
    | some p, some q => some (if f p q then (1 : Q) else 0)
    | _, _ => some (0 : Q)) a b

/-- Length of a column. -/
def colLen : ColData → Nat
  | .strCol vs => vs.length
  | .numCol _ vs => vs.length
  | .dtCol vs => vs.length

/-- Row count of a dataframe. -/
def dfRowCount : Df → Nat
  | [] => 0
  | (_, c) :: _ => colLen c

/-- Recursive-descent parser/evaluator for `df.eval` over numeric columns
(precedence: comparison < additive < multiplicative < atom).  Unknown
identifiers, non-numeric columns and malformed syntax are errors, which
`evaluate_expression` converts into its "Invalid expression" failure.
Fuel-bounded; token lists are tiny.  Parenthesised sub-expressions never
occur in the modelled flows and are treated as a syntax error. -/
def parseAtomF (df : Df) : Nat → List ETok → Except String (List (Option Q) × List ETok)
  | 0, _ => .error "syntax error"
  | _ + 1, .num q :: rest => .ok (List.replicate (dfRowCount df) (some q), rest)
  | _ + 1, .ident s :: rest =>
    match alookup df s with
    | some (.numCol _ vs) => .ok (vs, rest)
    | some _ => .error "TypeError"
    | none => .error ("name " ++ s ++ " is not defined")
  | _ + 1, _ => .error "syntax error"

/-- Multiplicative loop. -/
def parseMulLoopF (df : Df) : Nat → List (Option Q) → List ETok →
    Except String (List (Option Q) × List ETok)
  | 0, _, _ => .error "syntax error"
  | fuel + 1, v, .op "*" :: rest =>
    match parseAtomF df fuel rest with
    | .error e => .error e
    | .ok (w, rest2) => parseMulLoopF df fuel (zipArith (fun a b => a * b) v w) rest2
  | fuel + 1, v, .op "/" :: rest =>
    match parseAtomF df fuel rest with
    | .error e => .error e
    | .ok (w, rest2) => parseMulLoopF df fuel (zipArith (fun a b => a / b) v w) rest2
  | _ + 1, v, toks => .ok (v, toks)

/-- Multiplicative level. -/
def parseMulF (df : Df) : Nat → List ETok → Except String (List (Option Q) × List ETok)
  | 0, _ => .error "syntax error"
  | fuel + 1, toks =>
    match parseAtomF df fuel toks with
    | .error e => .error e
    | .ok (v, rest) => parseMulLoopF df fuel v rest

/-- Additive loop. -/
def parseAddLoopF (df : Df) : Nat → List (Option Q) → List ETok →
    Except String (List (Option Q) × List ETok)
  | 0, _, _ => .error "syntax error"
  | fuel + 1, v, .op "+" :: rest =>
    match parseMulF df fuel rest with
    | .error e => .error e
    | .ok (w, rest2) => parseAddLoopF df fuel (zipArith (fun a b => a + b) v w) rest2
  | fuel + 1, v, .op "-" :: rest =>
    match parseMulF df fuel rest with
    | .error e => .error e
    | .ok (w, rest2) => parseAddLoopF df fuel (zipArith (fun a b => a - b) v w) rest2
  | _ + 1, v, toks => .ok (v, toks)

/-- Additive level. -/
def parseAddF (df : Df) : Nat → List ETok → Except String (List (Option Q) × List ETok)
  | 0, _ => .error "syntax error"
  | fuel + 1, toks =>
    match parseMulF df fuel toks with
    | .error e => .error e
    | .ok (v, rest) => parseAddLoopF df fuel v rest

/-- Comparison level (a single optional comparison). -/
def parseCmpF (df : Df) : Nat → List ETok → Except String (List (Option Q) × List ETok)
  | 0, _ => .error "syntax error"
  | fuel + 1, toks =>
    match parseAddF df fuel toks with
    | .error e => .error e
    | .ok (v, rest) =>
      match rest with
      | .op "==" :: rest2 =>
        match parseAddF df fuel rest2 with
        | .error e => .error e
        | .ok (w, rest3) => .ok (zipCmp (fun a b => a = b) v w, rest3)
      | .op "!=" :: rest2 =>
        match parseAddF df fuel rest2 with
        | .error e => .error e
        | .ok (w, rest3) => .ok (zipCmp (fun a b => !(a = b)) v w, rest3)
      | .op "<=" :: rest2 =>
        match parseAddF df fuel rest2 with
        | .error e => .error e
        | .ok (w, rest3) => .ok (zipCmp (fun a b => a ≤ b) v w, rest3)
      | .op ">=" :: rest2 =>
        match parseAddF df fuel rest2 with
        | .error e => .error e
        | .ok (w, rest3) => .ok (zipCmp (fun a b => b ≤ a) v w, rest3)
      | .op "<" :: rest2 =>
        match parseAddF df fuel rest2 with
        | .error e => .error e
        | .ok (w, rest3) => .ok (zipCmp (fun a b => a < b) v w, rest3)
      | .op ">" :: rest2 =>
        match parseAddF df fuel rest2 with
        | .error e => .error e
        | .ok (w, rest3) => .ok (zipCmp (fun a b => b < a) v w, rest3)
      | _ => .ok (v, rest)

/-- `df.eval(expr)` followed by `pd.to_numeric(..., errors='coerce')`. -/
def pandasEval (df : Df) (expr : String) : Except String (List (Option Q)) :=
  match lexAux (expr.data.length + 1) expr.data with
  | none => .error "syntax error"
  | some toks =>
    match parseCmpF df (toks.length + 2) toks with
    | .error e => .error e
    | .ok (v, []) => .ok v
    | .ok (_, _ :: _) => .error "syntax error"

/-- `evaluate_expression`: double every `=` (`cleanEquals`), preprocess the
columns (mutating the dataframe with temp columns), evaluate, and round
when a precision is requested.  Any evaluation failure becomes the
`Invalid expression` error — the source raises `ValueError`; the
dataframe's accumulated temp columns are returned alongside, as the
mutations have already happened when the error is raised. -/
def evaluateExpression (df : Df) (expression : String)
    (decimalPlaces : Option Nat) : Df × Except String (List (Option Q)) :=
  let expression2 := cleanEquals expression
  let pre := preprocessExpression df expression2 decimalPlaces none []
  let df2 := pre.1
  let processedExpr := pre.2.1
  match pandasEval df2 processedExpr with
  | .error e =>
    (df2, .error ("Invalid expression: " ++ expression2 ++ ". Error: " ++ e))
  | .ok result =>
    match decimalPlaces with
    | some k => (df2, .ok (result.map (Option.map (pyRound k))))
    | none => (df2, .ok result)

/-- Whether an `Except` is the error case. -/
def exceptIsError {ε α : Type} : Except ε α → Bool
  | .error _ => true
  | .ok _ => false

/-- `Except` to `Option`, dropping the error. -/
def exceptToOption {ε α : Type} : Except ε α → Option α
  | .error _ => none
  | .ok a => some a

/-- The error payload of an `Except`, when it is an error. -/
def exceptErrorMsg {ε α : Type} : Except ε α → Option ε
  | .error e => some e
  | .ok _ => none

/-- C6: the `=`→`==` rewrite is `str.replace`, which doubles **every**
`=` — including those already part of `==`, `>=`, `<=` — so `"a >= b"`
becomes `"a >== b"` and `"a == b"` becomes `"a ==== b"`, and evaluating an
expression that already contains `==` fails with the `Invalid expression`
error instead of evaluating with its original comparison semantics. -/
theorem clean_equals_breaks_existing_comparisons :
    cleanEquals "a >= b" = "a >== b" ∧
    cleanEquals "a == b" = "a ==== b" ∧
    exceptIsError (evaluateExpression
      [("a", .numCol false [some 1]), ("b", .numCol false [some 2])]
      "a == b" none).2 = true := by
  refine ⟨rfl, rfl, ?_⟩
  decide

/-! ## `validate_data` (data_validator.py) -/

/-- A validation rule's `kwargs` dict (the keys the engine touches).
`valueEval` models `kwargs["value"] = {"$eval": expression}`. -/
structure RuleKwargs where
  column : Option String := none
  column_A : Option String := none
  column_B : Option String := none
  valueEval : Option String := none
  column_list : Option (List String) := none
  deriving DecidableEq

/-- A rule's `meta` dict. -/
structure RuleMeta where
  decimal_places : Option Nat := none
  date_format : Option String := none
  expression_column : Option String := none
  generated_column_name : Option String := none
  deriving DecidableEq

/-- A validation rule. -/
structure VRule where
  expectation_type : String
  kwargs : RuleKwargs
  meta : RuleMeta := {}
  rule_id : Option String := none
  deriving DecidableEq

/-- The space→underscore rename map built from the dataframe's columns. -/
def buildColumnMapping (df : Df) : List (String × String) :=
  df.filterMap (fun p =>
    if p.1.data.contains ' ' then some (p.1, spacesToUnderscores p.1) else none)

/-- `df.rename(columns=mapping)` (skipped when the mapping is empty). -/
def renameDf (df : Df) (mapping : List (String × String)) : Df :=
  if mapping = [] then df
  else df.map (fun p => ((alookup mapping p.1).getD p.1, p.2))

/-- The per-rule kwargs/meta rewrite of the renaming stage: rename
`column_A`, rename `column_B` (directly when it is a renamed column,
token-wise inside it when it is an expression), rename `column_list`
entries, and rewrite `meta.expression_column` token-wise. -/
def renameRule (mapping : List (String × String)) (r : VRule) : VRule :=
  if mapping = [] then r
  else
    let kw := r.kwargs
    let kw := match kw.column_A with
      | some a => if (alookup mapping a).isSome then { kw with column_A := alookup mapping a } else kw
      | none => kw
    let kw := match kw.column_B with
      | some b =>
        if (alookup mapping b).isSome then { kw with column_B := alookup mapping b }
        else if isExpressionStr b then
          { kw with
            column_B := some (mapping.foldl
              (fun e (p : String × String) => wordDelimitedReplace p.1 p.2 e) b) }
        else kw
      | none => kw
    let kw := match kw.column_list with
      | some l => { kw with column_list := some (l.map (fun c => (alookup mapping c).getD c)) }
      | none => kw
    let mt := match r.meta.expression_column with
      | some e => { r.meta with
          expression_column := some (mapping.foldl
            (fun ex (p : String × String) => wordDelimitedReplace p.1 p.2 ex) e) }
      | none => r.meta
    { r with kwargs := kw, meta := mt }

/-- The expression-materialization step of `validate_data` for one rule
(the body of its second `for rule in rules` loop).  For a pair-equality
rule: `column_A` is always coerced into a `__decimal_` column — the source
compares the *dict* returned by `detect_column_type` against the string
`'datetime'`, which is always False, so the datetime branch for `column_A`
is dead code; `column_B` is either an expression (preprocessed and
evaluated into `__expr_col_<rule_id|expr>`, where a failure raises out of
the whole call — the `Except`) or a simple column coerced per its detected
type; a `{"$eval": ...}` value behaves like the expression case.  Other
rule kinds pass through untouched. -/
def processRuleExpressions (columnMapping : List (String × String))
    (df : Df) (r : VRule) : Except String (Df × VRule) :=
  if r.expectation_type = "expect_column_pair_values_to_be_equal" then
    let decimalPlaces := r.meta.decimal_places
    let dateFormat := r.meta.date_format
    let stepA : Df × RuleKwargs :=
      match r.kwargs.column_A with
      | some colA =>
        (dfSet df ("__decimal_" ++ colA)
          (.numCol false (convertToDecimalCol ((alookup df colA).getD (.strCol [])) decimalPlaces)),
         { r.kwargs with column_A := some ("__decimal_" ++ colA) })
      | none => (df, r.kwargs)
    let df1 := stepA.1
    let kw := stepA.2
    match kw.column_B with
    | some colB =>
      if isExpressionStr colB then
        let newCol := "__expr_col_" ++ (r.rule_id.getD "expr")
        let pre := preprocessExpression df1 colB decimalPlaces dateFormat columnMapping
        let ev := evaluateExpression pre.1 pre.2.1 decimalPlaces
        match ev.2 with
        | .error e => .error e
        | .ok vals => .ok (dfSet ev.1 newCol (.numCol false vals), { r with kwargs := kw })
      else
        let colInfo := detectColumnTypeDf df1 colB
        if colInfo.base_type = "datetime" then
          .ok (dfSet df1 ("__datetime_" ++ colB)
                (.dtCol (convertToDatetime df1 colB dateFormat)),
               { r with kwargs := { kw with column_B := some ("__datetime_" ++ colB) } })
        else
          .ok (dfSet df1 ("__decimal_" ++ colB)
                (.numCol false (convertToDecimalCol ((alookup df1 colB).getD (.strCol [])) decimalPlaces)),
               { r with kwargs := { kw with column_B := some ("__decimal_" ++ colB) } })
    | none =>
      match kw.valueEval with
      | some expression =>
        let newCol := "__expr_col_" ++ (r.rule_id.getD "expr")
        let ev := evaluateExpression df1 expression decimalPlaces
        match ev.2 with
        | .error e => .error e
        | .ok vals => .ok (dfSet ev.1 newCol (.numCol false vals),
            { r with kwargs := { kw with column_B := some newCol } })
      | none => .ok (df1, { r with kwargs := kw })
  else .ok (df, r)

/-- The expression loop over all rules, threading the mutated dataframe; a
raised `ValueError` (the `Except.error`) aborts the remaining rules. -/
def loopRules (columnMapping : List (String × String)) :
    Df → List VRule → Except String (Df × List VRule)
  | df, [] => .ok (df, [])
  | df, r :: rest =>
    match processRuleExpressions columnMapping df r with
    | .error e => .error e
    | .ok (df2, r2) =>
      match loopRules columnMapping df2 rest with
      | .error e => .error e
      | .ok (df3, rs) => .ok (df3, r2 :: rs)

/-- An expectation configuration of the suite. -/
structure ExpectationConfig where
  expectation_type : String
  kwargs : RuleKwargs
  meta : RuleMeta
  deriving DecidableEq

/-- `create_expectation_suite`: for a pair-equality rule whose `column_B`
is an expression, point `column_B` at the synthetic column name
`__expr_col_<rule_id|expr_col>` and record the expression in `meta`.
(Note the default differs from the `expr` default used by
`validate_data` when materializing the column.) -/
def createExpectationSuite (rules : List VRule) : List ExpectationConfig :=
  rules.map (fun r =>
    if r.expectation_type = "expect_column_pair_values_to_be_equal" then
      match r.kwargs.column_B with
      | some colB =>
        if isExpressionStr colB then
          let exprColName := "__expr_col_" ++ (r.rule_id.getD "expr_col")
          { expectation_type := r.expectation_type,
            kwargs := { r.kwargs with column_B := some exprColName },
            meta := { r.meta with
              expression_column := some colB,
              generated_column_name := some exprColName } }
        else ⟨r.expectation_type, r.kwargs, r.meta⟩
      | none => ⟨r.expectation_type, r.kwargs, r.meta⟩
    else ⟨r.expectation_type, r.kwargs, r.meta⟩)

/-- Count of missing cells in a column. -/
def colNullCount : ColData → Nat
  | .strCol vs => (vs.filter (fun v => v.isNone)).length
  | .numCol _ vs => (vs.filter (fun v => v.isNone)).length
  | .dtCol vs => (vs.filter (fun v => v.isNone)).length

/-- Per-expectation outcome of the Great Expectations run. -/
structure RuleResult where
  expectation_type : String
  success : Bool
  exceptionRaised : Bool := false
  deriving DecidableEq

/-- The validation result object. -/
structure ValidationOutcome where
  success : Bool
  results : List RuleResult
  deriving DecidableEq

/-- Row-wise pair equality with Great Expectations' default
`both_values_are_missing` tolerance. -/
def pairEqualCol : ColData → ColData → Bool
  | .numCol _ va, .numCol _ vb =>
    (List.zip va vb).all (fun p => match p with
      | (none, none) => true
      | (some x, some y) => x = y
      | _ => false)
  | .dtCol va, .dtCol vb =>
    (List.zip va vb).all (fun p => match p with
      | (none, none) => true
      | (some x, some y) => x = y
      | _ => false)
  | .strCol va, .strCol vb =>
    (List.zip va vb).all (fun p => match p with
      | (none, none) => true
      | (some x, some y) => x = y
      | _ => false)
  | _, _ => false

/-- Modelled from the Great Expectations library (an external collaborator):
`ge_df.validate(suite)` runs every expectation, recording per-expectation
success; a missing column or unknown expectation type is caught and
reported per-expectation (`exceptionRaised`), never raised; the top-level
`success` is the conjunction. -/
def geValidate (df : Df) (suite : List ExpectationConfig) : ValidationOutcome :=
  let evalOne : ExpectationConfig → RuleResult := fun cfg =>
    if cfg.expectation_type = "expect_column_values_to_not_be_null" then
      match cfg.kwargs.column with
      | some col =>
        match alookup df col with
        | some c => ⟨cfg.expectation_type, colNullCount c = 0, false⟩
        | none => ⟨cfg.expectation_type, false, true⟩
      | none => ⟨cfg.expectation_type, false, true⟩
    else if cfg.expectation_type = "expect_column_pair_values_to_be_equal" then
      match cfg.kwargs.column_A, cfg.kwargs.column_B with
      | some a, some b =>
        match alookup df a, alookup df b with
        | some ca, some cb => ⟨cfg.expectation_type, pairEqualCol ca cb, false⟩
        | _, _ => ⟨cfg.expectation_type, false, true⟩
      | _, _ => ⟨cfg.expectation_type, false, true⟩
    else ⟨cfg.expectation_type, false, true⟩
  let results := suite.map evalOne
  ⟨results.all (fun r => r.success), results⟩

/-- `validate_data`: rename spaced columns dataset-wide and inside every
rule, materialize expression/coercion columns rule by rule (an expression
failure raises and aborts the whole call — the `Except.error`), build the
expectation suite from the mutated rules and run it.  The returned
dataframe models the in-place mutations visible after the call. -/
def validateData (df0 : Df) (rules : List VRule) :
    Except String (Df × ValidationOutcome) :=
  let mapping := buildColumnMapping df0
  let df1 := renameDf df0 mapping
  let rules1 := rules.map (renameRule mapping)
  match loopRules mapping df1 rules1 with
  | .error e => .error e
  | .ok (df2, processed) =>
    .ok (df2, geValidate df2 (createExpectationSuite processed))

/-- C7 (amended): when the first rule's right-hand expression is
malformed, the `ValueError` raised by `evaluate_expression` propagates out
of `validate_data`: the whole call aborts with the error, no later rule is
evaluated, and no per-rule report is produced — the result is the same as
if the batch contained only the failing rule. -/
theorem validate_data_malformed_aborts (df : Df) (r : VRule) (rest : List VRule)
    (h : exceptIsError (processRuleExpressions (buildColumnMapping df)
        (renameDf df (buildColumnMapping df))
        (renameRule (buildColumnMapping df) r)) = true) :
    exceptIsError (validateData df (r :: rest)) = true ∧
    validateData df (r :: rest) = validateData df [r] := by
  unfold validateData
  simp only [List.map_cons, List.map_nil]
  unfold loopRules
  cases hres : processRuleExpressions (buildColumnMapping df)
      (renameDf df (buildColumnMapping df)) (renameRule (buildColumnMapping df) r) with
  | error e => exact ⟨rfl, rfl⟩
  | ok v =>
    rw [hres] at h
    exact absurd h (by simp [exceptIsError])

/-- Dataframe for the C7 scenario. -/
def dfC7 : Df :=
  [("price", .strCol [some "1.5", some "2.5"]),
   ("quantity", .strCol [some "3.0", some "4.0"])]

/-- A well-formed rule: `price` must not be null. -/
def goodNotNullRule : VRule :=
  { expectation_type := "expect_column_values_to_not_be_null",
    kwargs := { column := some "price" } }

/-- A rule whose right-hand expression `"price *"` is malformed. -/
def badExprRule : VRule :=
  { expectation_type := "expect_column_pair_values_to_be_equal",
    kwargs := { column_A := some "quantity", column_B := some "price *" } }

/-- C7 counterexample: with a valid not-null rule first and a rule with a
malformed expression second, `validate_data` produces no report at all —
the call aborts with the raised `Invalid expression` error, so the first
rule, although independent and well-formed, is **not** evaluated and
reported. -/
theorem validate_data_malformed_no_report :
    exceptIsError (validateData dfC7 [goodNotNullRule, badExprRule]) = true ∧
    exceptErrorMsg (validateData dfC7 [goodNotNullRule, badExprRule]) =
      some "Invalid expression: __numeric_price *. Error: syntax error" := by
  constructor <;> decide

/-- Witness for C7 (amended) at the concrete malformed rule. -/
theorem validate_data_malformed_aborts_witness :
    exceptIsError (validateData dfC7 [badExprRule, goodNotNullRule]) = true ∧
    validateData dfC7 [badExprRule, goodNotNullRule] = validateData dfC7 [badExprRule] :=
  validate_data_malformed_aborts dfC7 badExprRule [goodNotNullRule] (by decide)

/-- Dataframe for the C9 scenario: two numeric columns and a `total`. -/
def dfC9 : Df :=
  [("price", .strCol [some "1.5", some "2.5"]),
   ("quantity", .strCol [some "3.0", some "4.0"]),
   ("total", .strCol [some "4.5", some "10.0"])]

/-- The C9 rule: `total` must equal the expression `price * quantity`. -/
def ruleC9 : VRule :=
  { expectation_type := "expect_column_pair_values_to_be_equal",
    kwargs := { column_A := some "total", column_B := some "price * quantity" } }

/-- C9 counterexample: evaluating `"price * quantity"` does **not** add
exactly one synthetic column — the 3-column dataframe ends the call with 9
columns (six added), because the `__decimal_`/`__numeric_` temp columns
persist and the preprocessing runs a second time inside
`evaluate_expression`, adding nested `__numeric___numeric_` temps. -/
theorem validate_data_expression_column_count :
    (exceptToOption (validateData dfC9 [ruleC9])).map (fun p => p.1.length) = some 9 ∧
    dfC9.length = 3 := by
  constructor <;> decide

/-- C9 (amended): the evaluation leaves the original columns' names and
values unmodified and appends, in order: the `__decimal_total` coercion of
`column_A`, the first-pass temps `__numeric_price` / `__numeric_quantity`,
the second-pass temps `__numeric___numeric_price` /
`__numeric___numeric_quantity`, and the result column `__expr_col_expr` —
the result column plus five persistent temporaries, not one column. -/
theorem validate_data_expression_columns_exact :
    (exceptToOption (validateData dfC9 [ruleC9])).map (fun p => p.1.map Prod.fst)
      = some (dfC9.map Prod.fst ++
          ["__decimal_total", "__numeric_price", "__numeric_quantity",
           "__numeric___numeric_price", "__numeric___numeric_quantity",
           "__expr_col_expr"]) ∧
    (exceptToOption (validateData dfC9 [ruleC9])).map (fun p =>
        (alookup p.1 "price", alookup p.1 "quantity", alookup p.1 "total"))
      = some (alookup dfC9 "price", alookup dfC9 "quantity", alookup dfC9 "total") := by
  constructor <;> decide

end DataIngestion
